import Mathlib

/-!
Verification of the publication identity-resolution and matching engine of the
pub_spork repository, as a shallow embedding in Lean 4.

Python strings are modelled as `List Char` (`Str`).  Python `None` for a string
variable is modelled by `Option Str` with `none`; Python truthiness of such a
value (`if s:`) is `truthy`.  Python dictionaries (insertion ordered, unique
keys) are modelled as association lists with `dictGet` / `dictSet` / `dictDel`.
`bisect.bisect_left` and `bisect.insort` are modelled by their documented
contract on sorted lists (`bisectLeft`, `insortRight`).  Messages printed to
stderr that a claim cares about (DOI conflict reports, DOI-parse warnings) are
modelled as explicit output values; other stderr prints do not change state and
are dropped.  Fallible operations (a constructor that raises, attribute lookup
that can fail) return `Except`.
-/

/-- Python strings, as lists of characters. -/
abbrev Str := List Char

/-- Python truthiness of an optional string: `None` and `""` are falsy. -/
def truthy : Option Str → Bool
  | none => false
  | some s => !s.isEmpty

/-- Python `str.lower()` restricted to ASCII case folding (`Char.toLower`),
which is all this repository's canonical keys rely on. -/
def pyLower (s : Str) : Str := s.map Char.toLower

/-- Python regex `\w` (a word character: letter, digit or underscore), for the
character range this repository exercises.  ASCII letters and digits and the
underscore are word characters; the truncation-marker characters U+00A0 and
U+2026 are non-word characters both here and in Python.  (Python additionally
counts non-ASCII Unicode letters as `\w`; no claim exercises those.) -/
def pyIsWordChar (c : Char) : Bool := c.isAlphanum || c == '_'

/-- Length of `dropWhile` never exceeds the input length. -/
theorem dropWhile_length_le (p : α → Bool) : ∀ l : List α, (l.dropWhile p).length ≤ l.length
  | [] => Nat.le_refl 0
  | a :: l => by
    by_cases h : p a
    · simp [List.dropWhile, h]
      exact Nat.le_succ_of_le (dropWhile_length_le p l)
    · simp [List.dropWhile, h]

/-- Python `re.sub(r'\W+', '', s)`: delete every maximal run of non-word
characters (from `publication.to_canonical`). -/
def pySubNonWord : Str → Str
  | [] => []
  | c :: rest =>
    if pyIsWordChar c then c :: pySubNonWord rest
    else pySubNonWord (rest.dropWhile (fun d => !pyIsWordChar d))
termination_by l => l.length
decreasing_by
  · simp only [List.length_cons]; exact Nat.lt_succ_of_le (Nat.le_refl _)
  · simp only [List.length_cons]
    exact Nat.lt_succ_of_le (dropWhile_length_le _ rest)

/-- `publication.to_canonical`: if the input is truthy, remove the non-word
runs and lower-case the remainder; `None` and `""` give `None`. -/
def to_canonical (messy : Option Str) : Option Str :=
  if truthy messy then some (pyLower (pySubNonWord (messy.getD []))) else none

/-- `publication.is_canonical_doi`: true iff the value is neither `None` nor
empty and starts with `10.`. -/
def is_canonical_doi (given_doi : Option Str) : Bool :=
  if truthy given_doi then (("10.").toList).isPrefixOf (given_doi.getD []) else false

/-- Python `str.find(sub)`: index of the first occurrence, `none` when absent. -/
def strFind : Str → Str → Option Nat
  | [], sub => if sub.isPrefixOf [] then some 0 else none
  | c :: rest, sub =>
    if sub.isPrefixOf (c :: rest) then some 0
    else (strFind rest sub).map (fun i => i + 1)

/-- `publication.to_canonical_doi`, with the number of emitted
"DOI column not empty, but not a DOI" warnings as second component.
Falsy input (`None` / `""`) is returned unchanged with no warning; otherwise
the input is lower-cased and cut at the first occurrence of `10.`; if there is
none, one warning is emitted and the empty string returned. -/
def to_canonical_doiW (given_doi : Option Str) : Option Str × Nat :=
  if truthy given_doi then
    let doi_lower := pyLower (given_doi.getD [])
    match strFind doi_lower (("10.").toList) with
    | none => (some [], 1)
    | some i => (some (doi_lower.drop i), 0)
  else (given_doi, 0)

/-- The value component of `to_canonical_doi`. -/
def to_canonical_doiV (given_doi : Option Str) : Option Str := (to_canonical_doiW given_doi).1

/-- `publication.is_google_truncated_title`: the raw title ends with a
non-breaking space (U+00A0) followed by an ellipsis (U+2026). -/
def is_google_truncated_title (title_text : Str) : Bool :=
  ([ ' ', '…' ]).isSuffixOf title_text

/-- `email_alert_gs.MIN_TRUNCATED_TITLE_LEN`: the shortest possible
Google-truncated raw title. -/
def MIN_TRUNCATED_TITLE_LEN : Nat := 135

/-- Python string `<` (lexicographic by code point). -/
def pyLt : Str → Str → Bool
  | [], [] => false
  | [], _ :: _ => true
  | _ :: _, [] => false
  | a :: as, b :: bs =>
    if a < b then true
    else if b < a then false
    else pyLt as bs

/-- Python string `<=`. -/
def pyLe (a b : Str) : Bool := !pyLt b a

/-- `bisect.bisect_left` on a sorted list: the number of elements `< x`. -/
def bisectLeft (l : List Str) (x : Str) : Nat := (l.takeWhile (fun t => pyLt t x)).length

/-- `bisect.insort` on a sorted list: insert after all elements `<= x`. -/
def insortRight (l : List Str) (x : Str) : List Str :=
  l.takeWhile (fun t => pyLe t x) ++ x :: l.dropWhile (fun t => pyLe t x)

/-- Python dict lookup `d.get(k)` on an association list. -/
def dictGet [BEq κ] : List (κ × β) → κ → Option β
  | [], _ => none
  | kv :: rest, k => if kv.1 == k then some kv.2 else dictGet rest k

/-- Python dict assignment `d[k] = v`: update in place if the key exists,
otherwise append (dicts preserve insertion order). -/
def dictSet [BEq κ] : List (κ × β) → κ → β → List (κ × β)
  | [], k, v => [(k, v)]
  | kv :: rest, k, v => if kv.1 == k then (k, v) :: rest else kv :: dictSet rest k v

/-- Python dict deletion `del d[k]`. -/
def dictDel [BEq κ] : List (κ × β) → κ → List (κ × β)
  | [], _ => []
  | kv :: rest, k => if kv.1 == k then dictDel rest k else kv :: dictDel rest k

/-- Python `str.strip()` for the whitespace this repository sees. -/
def pyStrip (s : Str) : Str :=
  (((s.dropWhile Char.isWhitespace).reverse).dropWhile Char.isWhitespace).reverse

/-- An alert (`alert.Alert` / `email_alert.EmailAlert`): one search string and a
source name (used only in report rendering).  Retrieval machinery is out of
scope of the claims. -/
structure Alert where
  search : Str
  source_name : Str := []
deriving DecidableEq, Repr

/-- `alert.ExcludeAlertsDB`, reduced to its lookup structure `_by_search`:
the set of search texts of exclude alerts.  (The nested by-source dictionary is
unused at lookup time, as the source notes.) -/
abbrev ExcludeDB := List Str

/-- `alert.ExcludeAlertsDB.is_an_exclude_alert`: the alert's stripped search
text is a key of `_by_search`. -/
def is_an_exclude_alert (db : ExcludeDB) (a : Alert) : Bool :=
  db.contains (pyStrip a.search)

/-- `email_alert.EmailAlert.get_search_text_with_alert_source`:
source name, colon-space, search text. -/
def Alert.get_search_text_with_alert_source (a : Alert) : Str :=
  a.source_name ++ (": ").toList ++ a.search

/-- A publication record (`publication.Pub`), restricted to the fields the
matching engine and the claims read (title, canonical title/DOI/first author,
authors, reference string, library tags).  Report-only fields (year, journal,
entry date, url, pub type) are omitted; no claim reads them. -/
structure Pub where
  title : Str := []
  canonical_title : Option Str := none
  canonical_doi : Option Str := none
  authors : Str := []
  canonical_first_author : Option Str := none
  ref : Option Str := none
  tags : List Str := []
deriving DecidableEq, Repr

/-- `publication.Pub.set_title`: sets the raw title and re-derives the
canonical title. -/
def Pub.set_title (p : Pub) (title : Str) : Pub :=
  { p with title := title, canonical_title := to_canonical (some title) }

/-- `pub_alert.PubAlert`: a pairing of a publication and the alert that
reported it, plus the optional matched text. -/
structure PubAlert where
  pub : Pub
  alert : Alert
  text_from_pub : Option Str := none
deriving DecidableEq, Repr

/-- State strings from `known_pub_db`. -/
def STATE_NEW : Str := ("new").toList

/-- State: is in the library of papers. -/
def STATE_INLIB : Str := ("inlib").toList

/-- State: looked at, was not relevant or cannot add. -/
def STATE_IGNORE : Str := ("ignore").toList

/-- State: looked at, but waiting on something to decide. -/
def STATE_WAIT : Str := ("wait").toList

/-- State: could not guess. -/
def STATE_CANT_GUESS : Str := ("cant-guess").toList

/-- In-memory-only state: never meant to be written out. -/
def STATE_DONT_KNOW_YET : Str := ("dont-know-yet").toList

/-- `known_pub_db.COLUMNS`: the five file-format columns, in order. -/
def COLUMNS : List Str :=
  [ ("title").toList, ("authors").toList, ("doi").toList, ("state").toList,
    ("annotation").toList ]

/-- `known_pub_db.KnownPubDBEntry`: one row of the known-pubs database.  The
`_row` dictionary's five values and the derived `_canonical_title`.  `none`
models Python `None`; the annotation field is named `annot` here. -/
structure KnownPubDBEntry where
  title : Option Str
  authors : Option Str
  doi : Option Str
  state : Option Str
  annot : Option Str
  canonical_title : Option Str
deriving DecidableEq, Repr

namespace KnownPubDBEntry

/-- `set_title`: store the raw title and re-derive the canonical title. -/
def set_title (e : KnownPubDBEntry) (t : Option Str) : KnownPubDBEntry :=
  { e with title := t, canonical_title := to_canonical t }

/-- `set_authors`. -/
def set_authors (e : KnownPubDBEntry) (a : Option Str) : KnownPubDBEntry :=
  { e with authors := a }

/-- `set_doi`: always stores the canonical form. -/
def set_doi (e : KnownPubDBEntry) (d : Option Str) : KnownPubDBEntry :=
  { e with doi := to_canonical_doiV d }

/-- `get_doi`: the stored DOI, with the empty string mapped to `None`. -/
def get_doi (e : KnownPubDBEntry) : Option Str :=
  match e.doi with
  | some [] => none
  | d => d

/-- `set_state`. -/
def set_state (e : KnownPubDBEntry) (s : Str) : KnownPubDBEntry :=
  { e with state := some s }

/-- `get_state`. -/
def get_state (e : KnownPubDBEntry) : Option Str := e.state

/-- `set_annotation`. -/
def set_annot (e : KnownPubDBEntry) (a : Option Str) : KnownPubDBEntry :=
  { e with annot := a }

/-- `get_annotation`. -/
def get_annot (e : KnownPubDBEntry) : Option Str := e.annot

/-- `get_canonical_title`. -/
def get_canonical_title (e : KnownPubDBEntry) : Option Str := e.canonical_title

/-- `KnownPubDBEntry()` with no row: `set_title(None)`, `set_authors(None)`,
`set_doi(None)`, `set_state(STATE_DONT_KNOW_YET)`, `set_annotation("")`. -/
def empty : KnownPubDBEntry :=
  ((((({ title := none, authors := none, doi := none, state := none,
         annot := none, canonical_title := none : KnownPubDBEntry }).set_title
         none).set_authors none).set_doi none).set_state
         STATE_DONT_KNOW_YET).set_annot (some [])

/-- `KnownPubDBEntry(row)`: keep the row values, re-derive the canonical
title, and canonicalize the DOI in place via `set_doi`. -/
def ofRow (title authors doi state annot : Str) : KnownPubDBEntry :=
  ({ title := some title, authors := some authors, doi := some doi,
     state := some state, annot := some annot,
     canonical_title := to_canonical (some title) : KnownPubDBEntry }).set_doi (some doi)

end KnownPubDBEntry

/-- The names `known_pub_db.KnownPubDBEntry` actually defines (methods of the
class, as written in the source).  Python attribute lookup on an entry object
succeeds exactly for these (plus the `_row` / `_canonical_title` data slots). -/
def knownPubEntryAttrNames : List String :=
  [ ("__init__"), ("set_title"), ("get_title"), ("get_canonical_title"),
    ("set_authors"), ("get_authors"), ("set_doi"), ("get_doi"),
    ("set_state"), ("get_state"), ("set_annotation"), ("get_annotation"),
    ("meld"), ("gen_separator_entry") ]

/-- The module-level names the `known_pub_db` module defines (constants,
column names, classes). -/
def knownPubDbModuleNames : List String :=
  [ ("STATE_NEW"), ("STATE_INLIB"), ("STATE_IGNORE"), ("STATE_WAIT"),
    ("STATE_CANT_GUESS"), ("STATE_DONT_KNOW_YET"), ("TITLE"), ("AUTHORS"),
    ("DOI"), ("STATE"), ("ANNOTATION"), ("COLUMNS"), ("KnownPubDBEntry"),
    ("KnownPubDB") ]

/-- Exceptions the modelled code can raise. -/
inductive PyErr where
  | assertionError (msg : String)
  | keyError
  | indexError
  | attributeError (name : String)
deriving DecidableEq, Repr

/-- One DOI-conflict report, as printed by `PubMatch.add_pub_alert`
(three stderr lines: the cluster title and both DOI values). -/
structure DoiConflict where
  title : Option Str
  doi1 : Option Str
  doi2 : Option Str
deriving DecidableEq, Repr

/-- `pub_match.PubMatch`: a cluster of one optional library pub, a list of
alert pairings, an optional known-pub (historical) record, and the derived
canonical identity fields. -/
structure PubMatch where
  lib_pub : Option Pub
  pub_alerts : List PubAlert
  known_pub : Option KnownPubDBEntry
  canonical_doi : Option Str
  canonical_title : Option Str
  canonical_first_author : Option Str
deriving DecidableEq, Repr

namespace PubMatch

/-- `is_new`: no library pub. -/
def is_new (pm : PubMatch) : Bool := pm.lib_pub.isNone

/-- `is_known`: has a library pub or a known pub. -/
def is_known (pm : PubMatch) : Bool := pm.lib_pub.isSome || pm.known_pub.isSome

/-- `is_lib_pub`: truthiness of the library pub. -/
def is_lib_pub (pm : PubMatch) : Bool := pm.lib_pub.isSome

/-- `set_lib_pub`: when given a pub, store it and copy its canonical
DOI / title / first author. -/
def set_lib_pub (pm : PubMatch) (lib : Option Pub) : PubMatch :=
  match lib with
  | some l =>
    { pm with
      lib_pub := some l
      canonical_doi := l.canonical_doi
      canonical_title := l.canonical_title
      canonical_first_author := l.canonical_first_author }
  | none => pm

/-- `set_known_pub`. -/
def set_known_pub (pm : PubMatch) (kp : KnownPubDBEntry) : PubMatch :=
  { pm with known_pub := some kp }

/-- `add_pub_alert`: append the pairing; back-fill canonical DOI / title /
first author only where the cluster has no truthy value yet; report (but do
not resolve) a DOI disagreement. -/
def add_pub_alert (pm : PubMatch) (pa : PubAlert) : PubMatch × List DoiConflict :=
  let pm1 := { pm with pub_alerts := pm.pub_alerts ++ [ pa ] }
  let doiStep : PubMatch × List DoiConflict :=
    if truthy pa.pub.canonical_doi then
      if truthy pm1.canonical_doi then
        if pa.pub.canonical_doi ≠ pm1.canonical_doi then
          (pm1, [ { title := pm1.canonical_title
                    doi1 := pm1.canonical_doi
                    doi2 := pa.pub.canonical_doi } ])
        else (pm1, [])
      else ({ pm1 with canonical_doi := pa.pub.canonical_doi }, [])
    else (pm1, [])
  let pm2 := doiStep.1
  let pm3 :=
    if truthy pa.pub.canonical_title && !(truthy pm2.canonical_title) then
      { pm2 with canonical_title := pa.pub.canonical_title }
    else pm2
  let pm4 :=
    if truthy pa.pub.canonical_first_author && !(truthy pm3.canonical_first_author) then
      { pm3 with canonical_first_author := pa.pub.canonical_first_author }
    else pm3
  (pm4, doiStep.2)

/-- `add_pub_alerts`: add a list of pairings one at a time, collecting the
conflict reports. -/
def add_pub_alerts (pm : PubMatch) (pas : List PubAlert) : PubMatch × List DoiConflict :=
  pas.foldl (fun acc pa =>
    let r := acc.1.add_pub_alert pa
    (r.1, acc.2 ++ r.2)) (pm, [])

/-- `PubMatch.__init__`: raises `AssertionError` when neither a library pub
nor any pairing is supplied; otherwise seeds from the library pub and adds the
pairings. -/
def init (lib : Option Pub) (pas : List PubAlert) : Except PyErr (PubMatch × List DoiConflict) :=
  if lib.isNone && pas.isEmpty then
    .error (.assertionError ("Attempt to create an empty pub_match."))
  else
    let base : PubMatch :=
      { lib_pub := none, pub_alerts := [], known_pub := none,
        canonical_doi := none, canonical_title := none,
        canonical_first_author := none }
    .ok ((base.set_lib_pub lib).add_pub_alerts pas)

/-- `get_pub_title`: the library pub's raw title, else the first pairing with
a truthy raw title, else `None`. -/
def get_pub_title (pm : PubMatch) : Option Str :=
  match pm.lib_pub with
  | some l => some l.title
  | none => pm.pub_alerts.findSome? (fun pa =>
      if pa.pub.title.isEmpty then none else some pa.pub.title)

/-- `get_pub_authors`: as `get_pub_title`, for the author string. -/
def get_pub_authors (pm : PubMatch) : Option Str :=
  match pm.lib_pub with
  | some l => some l.authors
  | none => pm.pub_alerts.findSome? (fun pa =>
      if pa.pub.authors.isEmpty then none else some pa.pub.authors)

/-- `get_pub_doi`: the library pub's canonical DOI; when that is falsy, the
first pairing with a truthy canonical DOI; else whatever the library gave. -/
def get_pub_doi (pm : PubMatch) : Option Str :=
  let d0 : Option Str := match pm.lib_pub with | some l => l.canonical_doi | none => none
  if truthy d0 then d0
  else
    match pm.pub_alerts.findSome? (fun pa =>
      if truthy pa.pub.canonical_doi then pa.pub.canonical_doi else none) with
    | some d => some d
    | none => d0

end PubMatch

/-- Render an optional string the way Python `format` renders it (`None` for
`None`). -/
def fmtOpt : Option Str → Str
  | some s => s
  | none => ("None").toList

/-- Stable insertion of `x` after all elements whose key is `<=` its key. -/
def insertByKey (key : α → Str) (x : α) : List α → List α
  | [] => [x]
  | y :: ys => if pyLe (key y) (key x) then y :: insertByKey key x ys else x :: y :: ys

/-- Python `sorted(l, key=...)`: stable sort by a string key. -/
def stableSortByKey (key : α → Str) (l : List α) : List α :=
  l.foldl (fun acc x => insertByKey key x acc) []

/-- `"\n".join(lines)`. -/
def joinNL (xs : List Str) : Str := List.intercalate (("\n").toList) xs

/-- `PubMatch.to_html`: the cluster's curation-report block — title, authors,
then one list item per pairing (in stable search-text order), flagging
excluded pairings with a background style, never dropping them. -/
def PubMatch.to_html (pm : PubMatch) (exclude_db : ExcludeDB) : Str :=
  let header : List Str :=
    [ ("<p style=\"font-size: 140%;\"><strong>").toList,
      fmtOpt pm.get_pub_title,
      ("</strong></p>").toList,
      ("<p>").toList ++ fmtOpt pm.get_pub_authors ++ ("</p>").toList ]
  let alertLines : List Str :=
    if pm.pub_alerts.length > 0 then
      let pub_alerts_sorted := stableSortByKey (fun pa => pa.alert.search) pm.pub_alerts
      let per := pub_alerts_sorted.foldl (fun acc pa =>
        let li_style : Str :=
          if is_an_exclude_alert exclude_db pa.alert then
            (" style=\"background-color: yellow;\"").toList
          else []
        acc
          ++ [ ("<li ").toList ++ li_style ++ ("><strong> ").toList
                ++ pa.alert.get_search_text_with_alert_source ++ (" </strong>").toList,
               ("<ul>").toList ]
          ++ (if truthy pa.pub.ref then
                [ ("<ul><li> ").toList ++ pa.pub.ref.getD [] ++ ("</li></ul>").toList ]
              else [])
          ++ (if truthy pa.text_from_pub then
                [ ("<ul><li> ").toList ++ pa.text_from_pub.getD [] ++ ("</li></ul>").toList ]
              else [])
          ++ [ ("</ul></li>").toList ]) []
      [ ("<p>Alerts for this pub:</p>").toList, ("<ol>").toList ] ++ per
        ++ [ ("</ol>").toList ]
    else []
  joinNL (header ++ alertLines)

/-- Which arm of the `pub_match.PubMatchDB.add_pub_alerts` lookup chain
handled one incoming alert pairing (instrumentation of the state machine
NoMatch -> MatchedByDOI | MatchedByTitle | MatchedByTruncationPrefix ->
Merged, or NoMatch -> Created). -/
inductive StepOutcome where
  | matchedByDoi (id : Nat)
  | matchedByTitle (id : Nat)
  | matchedByTruncated (id : Nat)
  | rekeyedMerge (id : Nat) (oldKey : Str)
  | created (id : Nat)
deriving DecidableEq, Repr

/-- `pub_match.PubMatchDB`: the Match Index.  Clusters live in `clusters`
(the Python heap); both dictionaries and the sorted title list hold indices
into it. -/
structure PubMatchDB where
  clusters : List PubMatch
  by_canonical_doi : List (Str × Nat)
  by_canonical_title : List (Str × Nat)
  canonical_titles_sorted : List Str
  ok_dups_by_canonical_title : List Str
deriving DecidableEq, Repr

namespace PubMatchDB

/-- The empty index (no library, no allow-list). -/
def emptyDB : PubMatchDB :=
  { clusters := []
    by_canonical_doi := []
    by_canonical_title := []
    canonical_titles_sorted := []
    ok_dups_by_canonical_title := [] }

/-- `add_pub_match`: append the cluster to the heap and register its truthy
canonical DOI and canonical title (duplicate-key warnings go to stderr and do
not change state). -/
def add_pub_match (db : PubMatchDB) (pm : PubMatch) : PubMatchDB :=
  let id := db.clusters.length
  let db := { db with clusters := db.clusters ++ [ pm ] }
  let db :=
    if truthy pm.canonical_doi then
      { db with by_canonical_doi := dictSet db.by_canonical_doi (pm.canonical_doi.getD []) id }
    else db
  if truthy pm.canonical_title then
    { db with
      by_canonical_title := dictSet db.by_canonical_title (pm.canonical_title.getD []) id
      canonical_titles_sorted := insortRight db.canonical_titles_sorted (pm.canonical_title.getD []) }
  else db

/-- The DOI lookup of the `add_pub_alerts` loop. -/
def doiLookup (db : PubMatchDB) (pa : PubAlert) : Option Nat :=
  if truthy pa.pub.canonical_doi then
    dictGet db.by_canonical_doi (pa.pub.canonical_doi.getD [])
  else none

/-- The exact canonical-title lookup of the `add_pub_alerts` loop. -/
def titleLookup (db : PubMatchDB) (pa : PubAlert) : Option Nat :=
  if truthy pa.pub.canonical_title then
    dictGet db.by_canonical_title (pa.pub.canonical_title.getD [])
  else none

/-- Merge the pairing into the cluster with the given heap index. -/
def mergeInto (db : PubMatchDB) (pa : PubAlert) (id : Nat) (outcome : StepOutcome) :
    Except PyErr (PubMatchDB × StepOutcome) :=
  match db.clusters.get? id with
  | none => .error .indexError
  | some pm =>
    .ok ({ db with clusters := db.clusters.set id (pm.add_pub_alert pa).1 }, outcome)

/-- Start a brand-new cluster from the pairing alone. -/
def createNewCluster (db : PubMatchDB) (pa : PubAlert) :
    Except PyErr (PubMatchDB × StepOutcome) :=
  match PubMatch.init none [ pa ] with
  | .error e => .error e
  | .ok (pm, _) => .ok (db.add_pub_match pm, .created db.clusters.length)

/-- The truncated-incoming-title arm: the incoming title carries the marker,
so binary-search the sorted titles for a stored longer title extending the
incoming canonical title. -/
def truncatedBranch (db : PubMatchDB) (pa : PubAlert) :
    Except PyErr (PubMatchDB × StepOutcome) :=
  let ct := pa.pub.canonical_title.getD []
  let full_title_i := bisectLeft db.canonical_titles_sorted ct
  if full_title_i = db.canonical_titles_sorted.length then createNewCluster db pa
  else
    match db.canonical_titles_sorted.get? full_title_i with
    | none => .error .indexError
    | some full_title =>
      if ct.isPrefixOf full_title then
        match dictGet db.by_canonical_title full_title with
        | none => .error .keyError
        | some id => mergeInto db pa id (.matchedByTruncated id)
      else createNewCluster db pa

/-- The full-incoming-title re-key arm: the incoming raw title is at least
the minimum truncated length, so binary-search with the canonical title cut
to that length; on a hit, replace the matched cluster's canonical-title key
(delete the old map key and sorted-list entry, insert the new longer one)
and merge. -/
def rekeyBranch (db : PubMatchDB) (pa : PubAlert) :
    Except PyErr (PubMatchDB × StepOutcome) :=
  let ct := pa.pub.canonical_title.getD []
  let pfx := ct.take MIN_TRUNCATED_TITLE_LEN
  let possible_match_i := bisectLeft db.canonical_titles_sorted pfx
  if possible_match_i = db.canonical_titles_sorted.length then createNewCluster db pa
  else
    match db.canonical_titles_sorted.get? possible_match_i with
    | none => .error .indexError
    | some old_title =>
      if pfx.isPrefixOf old_title then
        match dictGet db.by_canonical_title old_title with
        | none => .error .keyError
        | some id =>
          match db.clusters.get? id with
          | none => .error .indexError
          | some pm =>
            .ok ({ db with
                   by_canonical_title :=
                     dictSet (dictDel db.by_canonical_title old_title) ct id
                   canonical_titles_sorted :=
                     insortRight (db.canonical_titles_sorted.eraseIdx possible_match_i) ct
                   clusters :=
                     (db.clusters.set id
                       ((({ pm with canonical_title := some ct }).add_pub_alert pa).1)) },
                 .rekeyedMerge id old_title)
      else createNewCluster db pa

/-- One iteration of the `add_pub_alerts` loop: resolve the pairing against
the index (DOI, exact title, truncated-incoming search, full-incoming re-key)
and merge or create.  Returns the new index and which arm fired. -/
def add_pub_alert_step (db : PubMatchDB) (pa : PubAlert) :
    Except PyErr (PubMatchDB × StepOutcome) :=
  match doiLookup db pa with
  | some id => mergeInto db pa id (.matchedByDoi id)
  | none =>
    match titleLookup db pa with
    | some id => mergeInto db pa id (.matchedByTitle id)
    | none =>
      if is_google_truncated_title pa.pub.title then truncatedBranch db pa
      else if MIN_TRUNCATED_TITLE_LEN ≤ pa.pub.title.length then rekeyBranch db pa
      else createNewCluster db pa

/-- `add_pub_alerts` on the index: fold the per-pairing step over the list,
discarding the outcome tags. -/
def add_pub_alertsDB (db : PubMatchDB) (pas : List PubAlert) : Except PyErr PubMatchDB :=
  pas.foldlM (fun db pa => (add_pub_alert_step db pa).map (fun r => r.1)) db

/-- The lookup `add_known_pub_info` performs for one historical record:
by truthy DOI first, then by truthy canonical title. -/
def knownLookup (db : PubMatchDB) (kp : KnownPubDBEntry) : Option Nat :=
  let doi := kp.get_doi
  let byDoi : Option Nat :=
    if truthy doi then dictGet db.by_canonical_doi (doi.getD []) else none
  match byDoi with
  | some id => some id
  | none =>
    if truthy kp.get_canonical_title then
      dictGet db.by_canonical_title (kp.get_canonical_title.getD [])
    else none

/-- `add_known_pub_info`: overlay historical records onto existing clusters;
attach each record that matches a cluster, forcing its state to
`STATE_INLIB` when the cluster has a library pub; drop records with no
matching cluster. -/
def add_known_pub_info (db : PubMatchDB) (kps : List KnownPubDBEntry) : PubMatchDB :=
  kps.foldl (fun db kp =>
    match knownLookup db kp with
    | none => db
    | some id =>
      match db.clusters.get? id with
      | none => db
      | some pm =>
        let kp := if pm.is_lib_pub then kp.set_state STATE_INLIB else kp
        { db with clusters := db.clusters.set id (pm.set_known_pub kp) }) db

/-- `get_matchups_with_alerts_sorted_by_title`: the clusters that have alert
pairings, in canonical-title order. -/
def get_matchups_with_alerts_sorted_by_title (db : PubMatchDB) : List PubMatch :=
  let matches_w_alerts :=
    (db.by_canonical_title.filterMap (fun kv => db.clusters.get? kv.2)).filter
      (fun pm => !pm.pub_alerts.isEmpty)
  stableSortByKey (fun pm => pm.canonical_title.getD []) matches_w_alerts

/-- `get_matchups_without_known_pub`: the clusters with no historical
record. -/
def get_matchups_without_known_pub (db : PubMatchDB) : List PubMatch :=
  (db.by_canonical_title.filterMap (fun kv => db.clusters.get? kv.2)).filter
    (fun pm => pm.known_pub.isNone)

end PubMatchDB

/-- One data row of the known-pubs TSV file, in `COLUMNS` order
(title, authors, doi, state, annotation).  The csv layer writes `None`
fields as the empty string. -/
structure DBRow where
  title : Str
  authors : Str
  doi : Str
  state : Str
  annot : Str
deriving DecidableEq, Repr

/-- `KnownPubDBEntry(row)` for a row read back from a file: all five values
are strings. -/
def entryFromRow (r : DBRow) : KnownPubDBEntry :=
  KnownPubDBEntry.ofRow r.title r.authors r.doi r.state r.annot

/-- Serialize an entry's row dictionary the way `csv.DictWriter` does:
`None` becomes the empty string. -/
def writeRow (e : KnownPubDBEntry) : DBRow :=
  { title := e.title.getD []
    authors := e.authors.getD []
    doi := e.doi.getD []
    state := e.state.getD []
    annot := e.annot.getD [] }

/-- `known_pub_db.KnownPubDB`: title dictionary (which may have a `None`
key), DOI dictionary, and the sorted canonical-title list. -/
structure KnownPubDB where
  by_canonical_title : List (Option Str × KnownPubDBEntry)
  by_canonical_doi : List (Str × KnownPubDBEntry)
  canonical_titles_sorted : List Str
deriving DecidableEq, Repr

namespace KnownPubDB

/-- `KnownPubDB()` with no path: the empty database. -/
def emptyK : KnownPubDB :=
  { by_canonical_title := [], by_canonical_doi := [], canonical_titles_sorted := [] }

/-- `add_known_pub`: key the entry by canonical title (always) and by DOI
(when the DOI is canonical). -/
def add_known_pub (db : KnownPubDB) (kp : KnownPubDBEntry) : KnownPubDB :=
  let ct := kp.get_canonical_title
  let doi := kp.get_doi
  { db with
    by_canonical_title := dictSet db.by_canonical_title ct kp
    canonical_titles_sorted := insortRight db.canonical_titles_sorted (ct.getD [])
    by_canonical_doi :=
      if is_canonical_doi doi then dictSet db.by_canonical_doi (doi.getD []) kp
      else db.by_canonical_doi }

/-- `KnownPubDB(path)`: load every row of the file in order. -/
def load (rows : List DBRow) : KnownPubDB :=
  rows.foldl (fun db r => db.add_known_pub (entryFromRow r)) emptyK

/-- `get_all_known_pubs`: the values of the title dictionary, in insertion
order. -/
def get_all_known_pubs (db : KnownPubDB) : List KnownPubDBEntry :=
  db.by_canonical_title.map (fun kv => kv.2)

/-- `add_pubs_from_matchups`: for each matchup create a fresh entry (title,
authors, DOI from the matchup; state `inlib` when the matchup has a library
pub, else `new`; empty annotation) and add it to the database. -/
def add_pubs_from_matchups (db : KnownPubDB) (pub_matchups : List PubMatch) : KnownPubDB :=
  pub_matchups.foldl (fun db pm =>
    let kp := ((((KnownPubDBEntry.empty.set_title
      pm.get_pub_title).set_authors
      pm.get_pub_authors).set_doi
      pm.get_pub_doi).set_state
      (if pm.is_lib_pub then STATE_INLIB else STATE_NEW)).set_annot (some [])
    db.add_known_pub kp) db

/-- The entries `write_db_to_file` writes, in order: the `new` / `wait`
entries (with `cant-guess` rewritten to `wait` in place) first, then the
`ignore` / `inlib` entries, then the anomalous rest, each group sorted by
canonical title. -/
def writtenEntries (db : KnownPubDB) : List KnownPubDBEntry :=
  let vals := db.get_all_known_pubs
  let isActive (e : KnownPubDBEntry) : Bool :=
    e.get_state == some STATE_NEW || e.get_state == some STATE_WAIT
  let isPast (e : KnownPubDBEntry) : Bool :=
    e.get_state == some STATE_IGNORE || e.get_state == some STATE_INLIB
  let active_entries := vals.filterMap (fun e =>
    if isActive e then some e
    else if !isPast e && e.get_state == some STATE_CANT_GUESS then
      some (e.set_state STATE_WAIT)
    else none)
  let past_entries := vals.filter (fun e => !isActive e && isPast e)
  let bizarre_entries := vals.filter (fun e =>
    !isActive e && !isPast e && !(e.get_state == some STATE_CANT_GUESS))
  let key (e : KnownPubDBEntry) : Str := e.get_canonical_title.getD []
  stableSortByKey key active_entries ++ stableSortByKey key past_entries
    ++ stableSortByKey key bizarre_entries

/-- The data rows `write_db_to_file` emits (after the header row). -/
def writtenRows (db : KnownPubDB) : List DBRow :=
  (db.writtenEntries).map writeRow

end KnownPubDB

/-- Python attribute lookup against a table of defined names: `AttributeError`
when the name is not defined. -/
def pyGetAttr (names : List String) (n : String) : Except PyErr Unit :=
  if names.contains n then .ok () else .error (.attributeError n)

/-- Decimal rendering of a counter, as Python `format` does. -/
def natStr (n : Nat) : Str := (toString n).toList

/-- The report fragment `matchups_with_pub_alerts_to_html` appends for one
cluster once its state text and div style are known. -/
def matchupFragment (exclude_db : ExcludeDB) (additional_info_callback : PubMatch → List Str)
    (pm : PubMatch) (div_style state_text : Str) (counter : Nat) : List Str :=
  [ ("<div style=\"").toList ++ div_style
      ++ ("border: 1px solid #bbbbbb; margin: 1em 0.5em; padding-left: 1em; padding-right: 1em;\">").toList,
    ("<p style=\"font-size: 160%;\">").toList ++ natStr counter ++ (". ").toList
      ++ state_text ++ ("</p>").toList,
    pm.to_html exclude_db ]
  ++ additional_info_callback pm

/-- The body of the `matchups_with_pub_alerts_to_html` loop for one cluster:
build the state text (calling `get_qualifier` on the historical record when
one is attached — an attribute the entry class does not define), bump the
right counter, and emit the fragment. -/
def renderOne (exclude_db : ExcludeDB) (additional_info_callback : PubMatch → List Str)
    (pm : PubMatch) (known_count new_count : Nat) : Except PyErr (List Str × Nat × Nat) :=
  if pm.is_known then
    let knownPart : Except PyErr (Str × Str) :=
      match pm.known_pub with
      | none => .ok (("Known").toList, ("background-color: #dddddd; ").toList)
      | some kp =>
        match pyGetAttr knownPubEntryAttrNames ("get_qualifier") with
        | .error e => .error e
        | .ok _ =>
          match pyGetAttr knownPubDbModuleNames ("STATE_EXCLUDE") with
          | .error e => .error e
          | .ok _ =>
            -- Unreachable: both lookups above always fail (see claim C10);
            -- any total completion of this arm is observationally dead.
            let st := kp.get_state
            let stxt := ("Known").toList ++ (" (").toList ++ fmtOpt st
              ++ (": ").toList ++ fmtOpt kp.get_annot ++ (" | ").toList
              ++ fmtOpt none ++ (")").toList
            let dv :=
              if st = some STATE_INLIB || st = some STATE_IGNORE then
                ("background-color: #cccccc; color: #999999; ").toList
              else ("background-color: #dddddd; ").toList
            .ok (stxt, dv)
    match knownPart with
    | .error e => .error e
    | .ok (stxt, dv) =>
      let stxt :=
        match pm.lib_pub with
        | some l =>
          stxt ++ (" (").toList ++ List.intercalate ((", ").toList) l.tags ++ (")").toList
        | none => stxt
      let kc := known_count + 1
      .ok (matchupFragment exclude_db additional_info_callback pm dv stxt kc, kc, new_count)
  else
    let nc := new_count + 1
    .ok (matchupFragment exclude_db additional_info_callback pm
          (("background-color: #eeeeff; ").toList) (("New").toList) nc, known_count, nc)

/-- The `matchups_with_pub_alerts_to_html` loop over the sorted clusters. -/
def renderLoop (exclude_db : ExcludeDB) (additional_info_callback : PubMatch → List Str) :
    List PubMatch → Nat → Nat → List Str → Except PyErr (List Str)
  | [], _, _, output => .ok output
  | pm :: rest, kc, nc, output =>
    match renderOne exclude_db additional_info_callback pm kc nc with
    | .error e => .error e
    | .ok (frag, kc2, nc2) =>
      renderLoop exclude_db additional_info_callback rest kc2 nc2 (output ++ frag)

/-- `pub_match.PubMatchDB.matchups_with_pub_alerts_to_html`. -/
def PubMatchDB.matchups_with_pub_alerts_to_html (db : PubMatchDB) (exclude_db : ExcludeDB)
    (additional_info_callback : PubMatch → List Str) : Except PyErr Str :=
  (renderLoop exclude_db additional_info_callback
    (db.get_matchups_with_alerts_sorted_by_title) 0 0 []).map joinNL

/-! Helper lemmas. -/

/-- Filtering after dropping a leading run of non-`p` elements is filtering. -/
theorem filter_dropWhile_neg (p : α → Bool) : ∀ l : List α,
    ((l.dropWhile (fun d => !p d)).filter p) = l.filter p
  | [] => rfl
  | a :: l => by
    by_cases h : p a
    · simp [List.dropWhile_cons, h]
    · simp [List.dropWhile_cons, h, filter_dropWhile_neg p l, List.filter_cons]

/-- Run-based removal of non-word characters equals character-wise
filtering. -/
theorem pySubNonWord_eq_filter : ∀ l : Str, pySubNonWord l = l.filter pyIsWordChar
  | [] => by simp [pySubNonWord]
  | c :: rest => by
    by_cases h : pyIsWordChar c
    · rw [pySubNonWord]
      simp [h, pySubNonWord_eq_filter rest, List.filter_cons]
    · rw [pySubNonWord]
      simp only [h, Bool.false_eq_true, if_false]
      rw [pySubNonWord_eq_filter (rest.dropWhile (fun d => !pyIsWordChar d)),
        filter_dropWhile_neg pyIsWordChar rest]
      simp [List.filter_cons, h]
termination_by l => l.length
decreasing_by
  · simp only [List.length_cons]; exact Nat.lt_succ_of_le (Nat.le_refl _)
  · simp only [List.length_cons]
    exact Nat.lt_succ_of_le (dropWhile_length_le _ rest)

/-- When `strFind` returns an index, the pattern occurs there and nowhere
earlier. -/
theorem strFind_some_spec : ∀ (l sub : Str) (i : Nat), strFind l sub = some i →
    sub.isPrefixOf (l.drop i) = true ∧ ∀ j, j < i → sub.isPrefixOf (l.drop j) = false
  | [], sub, i => by
    rw [strFind]
    by_cases hp : sub.isPrefixOf []
    · rw [if_pos hp]
      intro h
      injection h with h
      subst h
      exact ⟨hp, fun j hj => absurd hj (Nat.not_lt_zero j)⟩
    · rw [if_neg hp]
      intro h
      exact absurd h (by simp)
  | c :: rest, sub, i => by
    rw [strFind]
    by_cases hp : sub.isPrefixOf (c :: rest)
    · rw [if_pos hp]
      intro h
      injection h with h
      subst h
      exact ⟨hp, fun j hj => absurd hj (Nat.not_lt_zero j)⟩
    · rw [if_neg hp]
      intro h
      cases hfind : strFind rest sub with
      | none => rw [hfind] at h; exact absurd h (by simp)
      | some i2 =>
        rw [hfind] at h
        simp only [Option.map] at h
        injection h with h
        subst h
        obtain ⟨hat, hmin⟩ := strFind_some_spec rest sub i2 hfind
        refine ⟨hat, ?_⟩
        intro j hj
        cases j with
        | zero =>
          simp only [List.drop_zero]
          exact Bool.eq_false_iff.mpr hp
        | succ j2 =>
          simp only [List.drop_succ_cons]
          exact hmin j2 (Nat.lt_of_succ_lt_succ hj)

/-- When `strFind` finds nothing, the pattern occurs nowhere. -/
theorem strFind_none_spec : ∀ (l sub : Str), strFind l sub = none →
    ∀ i, sub.isPrefixOf (l.drop i) = false
  | [], sub => by
    rw [strFind]
    by_cases hp : sub.isPrefixOf []
    · rw [if_pos hp]; intro h; exact absurd h (by simp)
    · intro _ i
      simp only [List.drop_nil]
      exact Bool.eq_false_iff.mpr hp
  | c :: rest, sub => by
    rw [strFind]
    by_cases hp : sub.isPrefixOf (c :: rest)
    · rw [if_pos hp]; intro h; exact absurd h (by simp)
    · rw [if_neg hp]
      intro hfind i
      cases i with
      | zero =>
        simp only [List.drop_zero]
        exact Bool.eq_false_iff.mpr hp
      | succ i2 =>
        simp only [List.drop_succ_cons]
        refine strFind_none_spec rest sub ?_ i2
        cases hf2 : strFind rest sub with
        | none => rfl
        | some i3 => rw [hf2] at hfind; exact absurd hfind (by simp [Option.map])

/-- Looking up the key just assigned gives the assigned value. -/
theorem dictGet_set_self {κ β : Type} [BEq κ] [LawfulBEq κ] (d : List (κ × β)) (k : κ) (v : β) :
    dictGet (dictSet d k v) k = some v := by
  induction d with
  | nil => simp [dictSet, dictGet]
  | cons kv rest ih =>
    by_cases h : kv.1 == k
    · simp [dictSet, h, dictGet]
    · simp [dictSet, h, dictGet, ih]

/-- Looking up a deleted key gives nothing. -/
theorem dictGet_del_self {κ β : Type} [BEq κ] (d : List (κ × β)) (k : κ) :
    dictGet (dictDel d k) k = none := by
  induction d with
  | nil => simp [dictDel, dictGet]
  | cons kv rest ih =>
    by_cases h : kv.1 == k
    · simp [dictDel, h, ih]
    · simp [dictDel, h, dictGet, ih]


/-- `pyLt` is irreflexive. -/
theorem pyLt_irrefl : ∀ a : Str, pyLt a a = false
  | [] => rfl
  | c :: as => by
    rw [pyLt]
    simp [lt_irrefl, pyLt_irrefl as]

/-- A prefix decomposes its extension. -/
theorem isPrefixOf_exists_append : ∀ (p t : Str), p.isPrefixOf t = true → ∃ r, t = p ++ r
  | [], t, _ => ⟨t, rfl⟩
  | a :: p2, [], h => by simp [List.isPrefixOf] at h
  | a :: p2, b :: t2, h => by
    rw [List.isPrefixOf] at h
    simp only [Bool.and_eq_true, beq_iff_eq] at h
    obtain ⟨rfl, h2⟩ := h
    obtain ⟨r, rfl⟩ := isPrefixOf_exists_append p2 t2 h2
    exact ⟨r, rfl⟩

/-- A string is never `pyLt`-below its own prefix. -/
theorem isPrefixOf_not_pyLt : ∀ (p t : Str), p.isPrefixOf t = true → pyLt t p = false
  | [], t, _ => by cases t <;> simp [pyLt]
  | a :: p2, t, h => by
    cases t with
    | nil => simp [List.isPrefixOf] at h
    | cons b t2 =>
      rw [List.isPrefixOf] at h
      simp only [Bool.and_eq_true, beq_iff_eq] at h
      obtain ⟨rfl, h2⟩ := h
      rw [pyLt]
      simp [lt_irrefl, isPrefixOf_not_pyLt p2 t2 h2]

/-- A string that is `pyLt`-at-or-above `p` but does not extend `p` is
strictly above every extension of `p`. -/
theorem pfx_between : ∀ (p u t : Str), pyLt u p = false → p.isPrefixOf u = false →
    p.isPrefixOf t = true → pyLt t u = true
  | [], u, t, _, hpu, _ => by simp [List.isPrefixOf] at hpu
  | a :: p2, [], t, hup, _, _ => by simp [pyLt] at hup
  | a :: p2, b :: u2, t, hup, hpu, hpt => by
    cases t with
    | nil => simp [List.isPrefixOf] at hpt
    | cons c t2 =>
      rw [List.isPrefixOf] at hpt
      simp only [Bool.and_eq_true, beq_iff_eq] at hpt
      obtain ⟨rfl, hpt2⟩ := hpt
      rw [pyLt] at hup
      rw [pyLt]
      by_cases h1 : a < b
      · simp [h1]
      · by_cases h2 : b < a
        · rw [if_pos h2] at hup
          exact absurd hup (by simp)
        · have hab : a = b := le_antisymm (not_lt.mp h2) (not_lt.mp h1)
          subst hab
          rw [if_neg h2, if_neg h1] at hup
          rw [if_neg h1, if_neg h2]
          rw [List.isPrefixOf] at hpu
          simp only [beq_self_eq_true, Bool.true_and] at hpu
          exact pfx_between p2 u2 t2 hup hpu hpt2

/-- `take n l` is a prefix of `l` (boolean form). -/
theorem take_isPrefixOf : ∀ (n : Nat) (l : Str), (l.take n).isPrefixOf l = true
  | 0, l => by cases l <;> simp [List.take, List.isPrefixOf]
  | n + 1, [] => by simp [List.take, List.isPrefixOf]
  | n + 1, c :: l => by simp [List.take, List.isPrefixOf, take_isPrefixOf n l]

/-- The element at the `takeWhile` length is the head of the `dropWhile`. -/
theorem get?_at_takeWhile_length (p : α → Bool) : ∀ l : List α,
    l[((l.takeWhile p).length)]? = (l.dropWhile p).head?
  | [] => rfl
  | a :: l => by
    by_cases h : p a
    · simp only [List.takeWhile_cons, List.dropWhile_cons, h, if_true, List.length_cons,
        List.getElem?_cons_succ]
      exact get?_at_takeWhile_length p l
    · simp [List.takeWhile_cons, List.dropWhile_cons, h]

/-- The head of a non-empty `dropWhile` fails the predicate. -/
theorem dropWhile_head_false (p : α → Bool) : ∀ (l : List α) (b : α) (rest : List α),
    l.dropWhile p = b :: rest → p b = false
  | [], b, rest => by simp [List.dropWhile]
  | a :: l, b, rest => by
    by_cases h : p a
    · rw [List.dropWhile_cons, if_pos h]
      exact dropWhile_head_false p l b rest
    · rw [List.dropWhile_cons, if_neg h]
      intro he
      injection he with he _
      subst he
      exact Bool.eq_false_iff.mpr h

/-- On a `pyLe`-sorted list, the binary-search probe of
`PubMatchDB.add_pub_alerts` (look at the entry at `bisect_left` and test it
with `startswith`) succeeds exactly when some stored string extends the
prefix. -/
theorem bisect_found_iff (l : List Str) (pfx : Str)
    (hs : l.Pairwise (fun a b => pyLe a b = true)) :
    (∃ t, (l.dropWhile (fun x => pyLt x pfx)).head? = some t ∧ pfx.isPrefixOf t = true)
      ↔ ∃ t ∈ l, pfx.isPrefixOf t = true := by
  constructor
  · rintro ⟨t, hh, hp⟩
    refine ⟨t, ?_, hp⟩
    have hmem : t ∈ l.dropWhile (fun x => pyLt x pfx) := by
      cases hd : l.dropWhile (fun x => pyLt x pfx) with
      | nil => rw [hd] at hh; exact absurd hh (by simp)
      | cons b rest =>
        rw [hd] at hh
        simp only [List.head?_cons, Option.some.injEq] at hh
        subst hh
        exact List.mem_cons_self _ _
    exact List.Sublist.mem hmem (List.dropWhile_sublist _)
  · rintro ⟨t, htl, hp⟩
    cases hd : l.dropWhile (fun x => pyLt x pfx) with
    | nil =>
      exfalso
      have hl : l.takeWhile (fun x => pyLt x pfx) ++ ([] : List Str) = l := by
        rw [← hd]
        exact List.takeWhile_append_dropWhile _ _
      rw [List.append_nil] at hl
      have hin : t ∈ l.takeWhile (fun x => pyLt x pfx) := by rw [hl]; exact htl
      have h1 := List.mem_takeWhile_imp hin
      rw [isPrefixOf_not_pyLt pfx t hp] at h1
      exact absurd h1 (by simp)
    | cons b rest =>
      refine ⟨b, by simp, ?_⟩
      by_cases hpb : pfx.isPrefixOf b
      · exact hpb
      · exfalso
        have hb_not_lt : pyLt b pfx = false := dropWhile_head_false _ l b rest hd
        have hlt : pyLt t b = true :=
          pfx_between pfx b t hb_not_lt (Bool.eq_false_iff.mpr hpb) hp
        have hsplit : l.takeWhile (fun x => pyLt x pfx) ++ (b :: rest) = l := by
          rw [← hd]
          exact List.takeWhile_append_dropWhile _ _
        have htmem : t ∈ l.takeWhile (fun x => pyLt x pfx) ∨ t ∈ b :: rest := by
          rw [← hsplit] at htl
          exact List.mem_append.mp htl
        cases htmem with
        | inl hin =>
          have h1 := List.mem_takeWhile_imp hin
          rw [isPrefixOf_not_pyLt pfx t hp] at h1
          exact absurd h1 (by simp)
        | inr hin =>
          cases List.mem_cons.mp hin with
          | inl heq =>
            subst heq
            rw [pyLt_irrefl] at hlt
            exact absurd hlt (by simp)
          | inr hin2 =>
            have hpw : (b :: rest).Pairwise (fun a b => pyLe a b = true) := by
              rw [← hsplit] at hs
              exact (List.pairwise_append.mp hs).2.1
            have hbt : pyLe b t = true := (List.pairwise_cons.mp hpw).1 t hin2
            rw [pyLe, hlt] at hbt
            exact absurd hbt (by simp)

/-- Truthiness of a present non-empty string. -/
theorem truthy_some_ne (s : Str) (h : s ≠ []) : truthy (some s) = true := by
  simp [truthy, List.isEmpty_iff, h]

/-- The claim's reading of the canonicalizer, word for word: every character
that is not a letter or digit removed, the rest lower-cased, and `None`
passed through.  Used to compare the specification against
`publication.to_canonical`. -/
def specCanonicalize (text : Option Str) : Option Str :=
  match text with
  | none => none
  | some s => some (pyLower (s.filter Char.isAlphanum))

/-- C7, counterexample: `to_canonical` keeps the underscore (Python `\W`
treats `_` as a word character), and maps the empty string to `None`, so it
differs from the claimed "every character that is not a letter or digit
removed" canonicalizer at the inputs `"a_b"` and `""`. -/
theorem c7_counterexample :
    to_canonical (some (("a_b").toList)) ≠ specCanonicalize (some (("a_b").toList))
    ∧ to_canonical (some (("a_b").toList)) = some (("a_b").toList)
    ∧ specCanonicalize (some (("a_b").toList)) = some (("ab").toList)
    ∧ to_canonical (some ([] : Str)) = none
    ∧ specCanonicalize (some ([] : Str)) = some [] := by
  refine ⟨?_, ?_, by decide, rfl, rfl⟩ <;>
    simp only [to_canonical, truthy, pySubNonWord_eq_filter] <;> decide

/-- C7 (amended): for every non-null, non-empty string, `to_canonical`
removes every character that is not a letter, digit or underscore and
lower-cases the rest; `to_canonical` maps `None` to `None` and the empty
string to `None`. -/
theorem c7_amended_theorem :
    (∀ s : Str, s ≠ [] → to_canonical (some s) = some (pyLower (s.filter pyIsWordChar)))
    ∧ to_canonical none = none
    ∧ to_canonical (some []) = none := by
  refine ⟨?_, rfl, rfl⟩
  intro s hs
  rw [to_canonical, truthy_some_ne s hs]
  simp [pySubNonWord_eq_filter]

/-- Witness for C7: the amended theorem applied at a concrete string. -/
theorem c7_witness :
    (("A_b9?").toList ≠ ([] : Str))
    ∧ to_canonical (some (("A_b9?").toList))
        = some (pyLower ((("A_b9?").toList).filter pyIsWordChar)) :=
  ⟨by decide, c7_amended_theorem.1 (("A_b9?").toList) (by decide)⟩

/-- C8: `to_canonical_doi` lower-cases its input and returns the substring
from the first occurrence of `10.` (so the example URL maps to
`10.1016/j.foo.2020`); a non-empty input with no occurrence of `10.` in its
lowered form yields one warning and the empty string; the empty string and
`None` pass through with no warning. -/
theorem c8_theorem :
    (to_canonical_doiW (some (("https://doi.org/10.1016/J.FOO.2020").toList))
      = (some (("10.1016/j.foo.2020").toList), 0))
    ∧ (∀ s : Str, s ≠ [] →
        (∀ i, (("10.").toList).isPrefixOf ((pyLower s).drop i) = false) →
        to_canonical_doiW (some s) = (some [], 1))
    ∧ (∀ (s : Str) (i : Nat),
        (("10.").toList).isPrefixOf ((pyLower s).drop i) = true →
        (∀ j, j < i → (("10.").toList).isPrefixOf ((pyLower s).drop j) = false) →
        to_canonical_doiW (some s) = (some ((pyLower s).drop i), 0))
    ∧ to_canonical_doiW (some []) = (some [], 0)
    ∧ to_canonical_doiW none = (none, 0) := by
  refine ⟨by decide, ?_, ?_, rfl, rfl⟩
  · intro s hs hno
    rw [to_canonical_doiW, truthy_some_ne s hs]
    simp only [Option.getD_some]
    cases hf : strFind (pyLower s) (("10.").toList) with
    | none => rfl
    | some i =>
      obtain ⟨hat, _⟩ := strFind_some_spec (pyLower s) (("10.").toList) i hf
      rw [hno i] at hat
      exact absurd hat (by simp)
  · intro s i hat hmin
    have hs : s ≠ [] := by
      intro he
      subst he
      simp only [pyLower, List.map_nil, List.drop_nil] at hat
      exact absurd hat (by decide)
    rw [to_canonical_doiW, truthy_some_ne s hs]
    simp only [Option.getD_some]
    cases hf : strFind (pyLower s) (("10.").toList) with
    | none =>
      rw [strFind_none_spec (pyLower s) (("10.").toList) hf i] at hat
      exact absurd hat (by simp)
    | some i2 =>
      obtain ⟨hat2, hmin2⟩ := strFind_some_spec (pyLower s) (("10.").toList) i2 hf
      have hii : i2 = i := by
        rcases Nat.lt_trichotomy i2 i with hlt | heq | hgt
        · rw [hmin i2 hlt] at hat2
          exact absurd hat2 (by simp)
        · exact heq
        · rw [hmin2 i hgt] at hat
          exact absurd hat (by simp)
      subst hii
      rfl

/-- Witness for C8: the no-occurrence conjunct applied at `"not a doi"` and
the occurrence conjunct applied at `"doi:10.1/X"`. -/
theorem c8_witness :
    to_canonical_doiW (some (("not a doi").toList)) = (some [], 1)
    ∧ to_canonical_doiW (some (("doi:10.1/X").toList))
        = (some (((pyLower (("doi:10.1/X").toList)).drop 4)), 0) :=
  ⟨c8_theorem.2.1 (("not a doi").toList) (by decide) (by
      intro i
      by_cases h : i < 9
      · interval_cases i <;> decide
      · rw [List.drop_eq_nil_of_le (by simp [pyLower]; omega)]
        decide),
    c8_theorem.2.2.1 (("doi:10.1/X").toList) 4 (by decide) (by decide)⟩

/-- `add_pub_alert` never changes the library pub or the known pub, and
always appends exactly the new pairing. -/
theorem add_pub_alert_fields (pm : PubMatch) (pa : PubAlert) :
    ((pm.add_pub_alert pa).1.lib_pub = pm.lib_pub)
    ∧ ((pm.add_pub_alert pa).1.known_pub = pm.known_pub)
    ∧ ((pm.add_pub_alert pa).1.pub_alerts = pm.pub_alerts ++ [ pa ]) := by
  rw [PubMatch.add_pub_alert]
  split_ifs <;> simp_all

/-- Accumulator form of the `add_pub_alerts` loop invariant. -/
theorem add_pub_alerts_foldl_aux : ∀ (pas : List PubAlert) (acc : PubMatch × List DoiConflict),
    ((pas.foldl (fun acc pa =>
        let r := acc.1.add_pub_alert pa
        (r.1, acc.2 ++ r.2)) acc).1.lib_pub = acc.1.lib_pub)
    ∧ ((pas.foldl (fun acc pa =>
        let r := acc.1.add_pub_alert pa
        (r.1, acc.2 ++ r.2)) acc).1.known_pub = acc.1.known_pub)
    ∧ ((pas.foldl (fun acc pa =>
        let r := acc.1.add_pub_alert pa
        (r.1, acc.2 ++ r.2)) acc).1.pub_alerts = acc.1.pub_alerts ++ pas)
  | [], acc => by simp
  | pa :: pas, acc => by
    simp only [List.foldl_cons]
    obtain ⟨h1, h2, h3⟩ := add_pub_alerts_foldl_aux pas ((acc.1.add_pub_alert pa).1,
      acc.2 ++ (acc.1.add_pub_alert pa).2)
    obtain ⟨g1, g2, g3⟩ := add_pub_alert_fields acc.1 pa
    refine ⟨?_, ?_, ?_⟩
    · rw [h1, g1]
    · rw [h2, g2]
    · rw [h3, g3]
      simp

/-- `add_pub_alerts` (on a cluster) preserves the library and known pub and
appends the pairings in order. -/
theorem add_pub_alerts_fields (pm : PubMatch) (pas : List PubAlert) :
    ((pm.add_pub_alerts pas).1.lib_pub = pm.lib_pub)
    ∧ ((pm.add_pub_alerts pas).1.known_pub = pm.known_pub)
    ∧ ((pm.add_pub_alerts pas).1.pub_alerts = pm.pub_alerts ++ pas) := by
  rw [PubMatch.add_pub_alerts]
  exact add_pub_alerts_foldl_aux pas (pm, [])

/-- The cluster invariant: a library pub or at least one alert pairing. -/
def pmInv (pm : PubMatch) : Prop := pm.lib_pub.isSome = true ∨ pm.pub_alerts ≠ []

/-- C9: constructing a cluster with neither a library pub nor a pairing
raises `AssertionError` and yields no cluster; every successful construction
satisfies the never-empty invariant; and adding a pairing, attaching a
historical record, and the re-keying canonical-title update all preserve
it. -/
theorem c9_theorem :
    (PubMatch.init none [] = .error (.assertionError ("Attempt to create an empty pub_match.")))
    ∧ (∀ lib pas pm logs, PubMatch.init lib pas = .ok (pm, logs) → pmInv pm)
    ∧ (∀ pm pa, pmInv pm → pmInv (pm.add_pub_alert pa).1)
    ∧ (∀ pm kp, pmInv pm → pmInv (pm.set_known_pub kp))
    ∧ (∀ pm c, pmInv pm → pmInv { pm with canonical_title := c }) := by
  refine ⟨rfl, ?_, ?_, ?_, ?_⟩
  · intro lib pas pm logs h
    rw [PubMatch.init] at h
    by_cases he : lib.isNone && pas.isEmpty
    · rw [if_pos he] at h
      exact absurd h (by simp)
    · rw [if_neg he] at h
      injection h with h
      obtain ⟨h1, _, h3⟩ := add_pub_alerts_fields
        (({ lib_pub := none, pub_alerts := [], known_pub := none, canonical_doi := none,
            canonical_title := none,
            canonical_first_author := none : PubMatch }).set_lib_pub lib) pas
      rw [h] at h1 h3
      cases lib with
      | some l =>
        left
        rw [show (pm, logs).1 = pm from rfl] at h1
        rw [h1]
        rfl
      | none =>
        right
        rw [show (pm, logs).1 = pm from rfl] at h3
        rw [h3]
        simp only [Bool.and_eq_true, List.isEmpty_iff, not_and] at he
        simp only [PubMatch.set_lib_pub, List.nil_append]
        intro hnil
        exact he rfl hnil
  · intro pm pa h
    cases h with
    | inl h =>
      left
      rw [(add_pub_alert_fields pm pa).1]
      exact h
    | inr h =>
      right
      rw [(add_pub_alert_fields pm pa).2.2]
      simp
  · intro pm kp h
    cases h with
    | inl h => exact Or.inl h
    | inr h => exact Or.inr h
  · intro pm c h
    cases h with
    | inl h => exact Or.inl h
    | inr h => exact Or.inr h

/-- Witness for C9: the invariant-preservation conjuncts applied to a
concrete one-alert cluster. -/
theorem c9_witness :
    pmInv { lib_pub := none
            pub_alerts := [ { pub := {}, alert := { search := ("q").toList } } ]
            known_pub := none
            canonical_doi := none
            canonical_title := none
            canonical_first_author := none }
    ∧ pmInv (PubMatch.add_pub_alert
        { lib_pub := none
          pub_alerts := [ { pub := {}, alert := { search := ("q").toList } } ]
          known_pub := none
          canonical_doi := none
          canonical_title := none
          canonical_first_author := none }
        { pub := {}, alert := { search := ("r").toList } }).1 :=
  ⟨Or.inr (by decide),
    c9_theorem.2.2.1 _ { pub := {}, alert := { search := ("r").toList } }
      (Or.inr (by decide))⟩

/-- C4: on a cluster that already has a (truthy) canonical DOI, adding a
pairing with a different truthy canonical DOI appends the pairing, keeps the
cluster's DOI, and emits exactly one conflict report; an agreeing DOI emits
none; canonical title and first author are back-filled only when the cluster
has no truthy value for them. -/
theorem c4_theorem (pm : PubMatch) (pa : PubAlert) (d d2 : Str)
    (hpm : pm.canonical_doi = some d) (hd : d ≠ [])
    (hpa : pa.pub.canonical_doi = some d2) (hd2 : d2 ≠ []) :
    ((pm.add_pub_alert pa).1.pub_alerts = pm.pub_alerts ++ [ pa ])
    ∧ ((pm.add_pub_alert pa).1.canonical_doi = some d)
    ∧ (d2 ≠ d → (pm.add_pub_alert pa).2 =
        [ { title := pm.canonical_title, doi1 := some d, doi2 := some d2 } ])
    ∧ (d2 = d → (pm.add_pub_alert pa).2 = [])
    ∧ (truthy pm.canonical_title = true →
        (pm.add_pub_alert pa).1.canonical_title = pm.canonical_title)
    ∧ (truthy pm.canonical_title = false → truthy pa.pub.canonical_title = true →
        (pm.add_pub_alert pa).1.canonical_title = pa.pub.canonical_title)
    ∧ (truthy pm.canonical_first_author = true →
        (pm.add_pub_alert pa).1.canonical_first_author = pm.canonical_first_author)
    ∧ (truthy pm.canonical_first_author = false →
        truthy pa.pub.canonical_first_author = true →
        (pm.add_pub_alert pa).1.canonical_first_author = pa.pub.canonical_first_author) := by
  rw [PubMatch.add_pub_alert]
  simp only [hpm, hpa, truthy_some_ne d hd, truthy_some_ne d2 hd2, if_true]
  by_cases hne : (some d2 : Option Str) ≠ some d
  · rw [if_pos hne]
    split_ifs <;> simp_all <;> (try constructor) <;> (try (intro h1 h2; simp_all))
  · rw [if_neg hne]
    split_ifs <;> simp_all <;> (try constructor) <;> (try (intro h1 h2; simp_all))

/-- Witness for C4: a concrete cluster with DOI `10.1/a` receiving a pairing
with DOI `10.1/b`. -/
theorem c4_witness :
    (let pm : PubMatch :=
      { lib_pub := none
        pub_alerts := []
        known_pub := none
        canonical_doi := some (("10.1/a").toList)
        canonical_title := some (("t").toList)
        canonical_first_author := none }
    let pa : PubAlert :=
      { pub := { canonical_doi := some (("10.1/b").toList)
                 canonical_title := some (("u").toList)
                 canonical_first_author := some (("v").toList) }
        alert := { search := ("q").toList } }
    ((pm.add_pub_alert pa).1.canonical_doi = some (("10.1/a").toList))
    ∧ (pm.add_pub_alert pa).2 =
        [ { title := some (("t").toList), doi1 := some (("10.1/a").toList),
            doi2 := some (("10.1/b").toList) } ]
    ∧ (pm.add_pub_alert pa).1.canonical_title = some (("t").toList)
    ∧ (pm.add_pub_alert pa).1.canonical_first_author = some (("v").toList)) := by
  have h := c4_theorem
    { lib_pub := none
      pub_alerts := []
      known_pub := none
      canonical_doi := some (("10.1/a").toList)
      canonical_title := some (("t").toList)
      canonical_first_author := none }
    { pub := { canonical_doi := some (("10.1/b").toList)
               canonical_title := some (("u").toList)
               canonical_first_author := some (("v").toList) }
      alert := { search := ("q").toList } }
    (("10.1/a").toList) (("10.1/b").toList) rfl (by decide) rfl (by decide)
  exact ⟨h.2.1, h.2.2.1 (by decide), h.2.2.2.2.1 (by decide), h.2.2.2.2.2.2.2 (by decide) (by decide)⟩

/-- C3, counterexample: the history store has no qualifier at all — the file
format `COLUMNS` is exactly the five columns title, authors, doi, state,
annotation, and the entry class defines no qualifier accessor — so a
round-trip cannot preserve an "equal qualifier". -/
theorem c3_counterexample :
    (("qualifier").toList) ∉ COLUMNS
    ∧ ("get_qualifier") ∉ knownPubEntryAttrNames
    ∧ COLUMNS.length = 5 := by
  refine ⟨by decide, by decide, rfl⟩

/-- C3 (amended): for every record the store writes whose fields are in the
canonical form the store's own constructors produce (canonical title derived
from the title, DOI a fixed point of DOI canonicalization, state and
annotation present), reloading the written row yields a record with equal
canonical DOI, canonical title, state and annotation.  (Records have no
qualifier field; the file format has exactly five columns.) -/
theorem c3_amended_theorem (db : KnownPubDB) (e : KnownPubDBEntry)
    (_hmem : e ∈ db.writtenEntries)
    (hct : e.canonical_title = to_canonical e.title)
    (hdoi : e.doi = to_canonical_doiV e.doi)
    (hstate : e.state.isSome = true)
    (hannot : e.annot.isSome = true) :
    ((entryFromRow (writeRow e)).get_doi = e.get_doi)
    ∧ ((entryFromRow (writeRow e)).get_canonical_title = e.get_canonical_title)
    ∧ ((entryFromRow (writeRow e)).get_state = e.get_state)
    ∧ ((entryFromRow (writeRow e)).get_annot = e.get_annot) := by
  obtain ⟨st, hst⟩ := Option.isSome_iff_exists.mp hstate
  obtain ⟨an, han⟩ := Option.isSome_iff_exists.mp hannot
  refine ⟨?_, ?_, ?_, ?_⟩
  · simp only [entryFromRow, writeRow, KnownPubDBEntry.ofRow, KnownPubDBEntry.set_doi,
      KnownPubDBEntry.get_doi]
    cases hd : e.doi with
    | none =>
      simp only [Option.getD_none]
      rfl
    | some dd =>
      simp only [Option.getD_some]
      rw [hd] at hdoi
      rw [← hdoi]
  · simp only [entryFromRow, writeRow, KnownPubDBEntry.ofRow, KnownPubDBEntry.set_doi,
      KnownPubDBEntry.get_canonical_title]
    cases ht : e.title with
    | none =>
      simp only [Option.getD_none]
      rw [hct, ht]
      rfl
    | some t =>
      simp only [Option.getD_some]
      rw [hct, ht]
  · simp only [entryFromRow, writeRow, KnownPubDBEntry.ofRow, KnownPubDBEntry.set_doi,
      KnownPubDBEntry.get_state]
    rw [hst]
    rfl
  · simp only [entryFromRow, writeRow, KnownPubDBEntry.ofRow, KnownPubDBEntry.set_doi,
      KnownPubDBEntry.get_annot]
    rw [han]
    rfl

/-- A concrete well-formed entry for the C3 witness. -/
def c3WitnessEntry : KnownPubDBEntry :=
  { title := some (("Tt").toList)
    authors := some (("A").toList)
    doi := some (("10.5/x").toList)
    state := some STATE_NEW
    annot := some []
    canonical_title := some (("tt").toList) }

/-- A store holding just the C3 witness entry. -/
def c3WitnessDB : KnownPubDB := KnownPubDB.emptyK.add_known_pub c3WitnessEntry

/-- Witness for C3: the amended round-trip applied to the concrete entry. -/
theorem c3_witness :
    c3WitnessEntry ∈ c3WitnessDB.writtenEntries
    ∧ ((entryFromRow (writeRow c3WitnessEntry)).get_doi = c3WitnessEntry.get_doi)
    ∧ ((entryFromRow (writeRow c3WitnessEntry)).get_canonical_title
        = c3WitnessEntry.get_canonical_title)
    ∧ ((entryFromRow (writeRow c3WitnessEntry)).get_state = c3WitnessEntry.get_state)
    ∧ ((entryFromRow (writeRow c3WitnessEntry)).get_annot = c3WitnessEntry.get_annot) :=
  have hct : c3WitnessEntry.canonical_title = to_canonical c3WitnessEntry.title := by
    simp only [c3WitnessEntry, to_canonical, truthy, pySubNonWord_eq_filter]
    decide
  have h := c3_amended_theorem c3WitnessDB c3WitnessEntry (by decide) hct (by decide) rfl rfl
  ⟨by decide, h.1, h.2.1, h.2.2.1, h.2.2.2⟩

/-- The fields of the history entry `add_pubs_from_matchups` builds for one
matchup. -/
theorem matchup_entry_fields (pm : PubMatch) :
    (((((KnownPubDBEntry.empty.set_title pm.get_pub_title).set_authors
        pm.get_pub_authors).set_doi pm.get_pub_doi).set_state
        (if pm.is_lib_pub then STATE_INLIB else STATE_NEW)).set_annot
        (some [])).get_canonical_title = to_canonical pm.get_pub_title
    ∧ (((((KnownPubDBEntry.empty.set_title pm.get_pub_title).set_authors
        pm.get_pub_authors).set_doi pm.get_pub_doi).set_state
        (if pm.is_lib_pub then STATE_INLIB else STATE_NEW)).set_annot
        (some [])).title = pm.get_pub_title
    ∧ (((((KnownPubDBEntry.empty.set_title pm.get_pub_title).set_authors
        pm.get_pub_authors).set_doi pm.get_pub_doi).set_state
        (if pm.is_lib_pub then STATE_INLIB else STATE_NEW)).set_annot
        (some [])).state = some (if pm.is_lib_pub then STATE_INLIB else STATE_NEW)
    ∧ (((((KnownPubDBEntry.empty.set_title pm.get_pub_title).set_authors
        pm.get_pub_authors).set_doi pm.get_pub_doi).set_state
        (if pm.is_lib_pub then STATE_INLIB else STATE_NEW)).set_annot
        (some [])).annot = some []
    ∧ (((((KnownPubDBEntry.empty.set_title pm.get_pub_title).set_authors
        pm.get_pub_authors).set_doi pm.get_pub_doi).set_state
        (if pm.is_lib_pub then STATE_INLIB else STATE_NEW)).set_annot
        (some [])).doi = to_canonical_doiV pm.get_pub_doi := by
  simp [KnownPubDBEntry.empty, KnownPubDBEntry.set_title, KnownPubDBEntry.set_authors,
    KnownPubDBEntry.set_doi, KnownPubDBEntry.set_state, KnownPubDBEntry.set_annot,
    KnownPubDBEntry.get_canonical_title]

/-- Exporting a single matchup keys the new entry by the canonical form of
the matchup's title. -/
theorem add_pubs_from_matchups_singleton (kdb : KnownPubDB) (pm : PubMatch) :
    (kdb.add_pubs_from_matchups [ pm ]).by_canonical_title =
      dictSet kdb.by_canonical_title (to_canonical pm.get_pub_title)
        (((((KnownPubDBEntry.empty.set_title pm.get_pub_title).set_authors
          pm.get_pub_authors).set_doi pm.get_pub_doi).set_state
          (if pm.is_lib_pub then STATE_INLIB else STATE_NEW)).set_annot (some [])) := by
  rw [KnownPubDB.add_pubs_from_matchups]
  simp only [List.foldl_cons, List.foldl_nil, KnownPubDB.add_known_pub]
  rw [(matchup_entry_fields pm).1]

/-- C2 (amended): the clusters selected for export are exactly those without
a historical record; the Historical Record exported for a cluster has state
`inlib` when the cluster has a library record and `new` otherwise — with an
always-empty annotation and regardless of any exclude list (the store has no
"excluded" state and `add_pubs_from_matchups` never consults the exclude
list); in particular a cluster with `is_new() == True` and
`is_known() == False` is exported with state `new`. -/
theorem c2_amended_theorem :
    (∀ db : PubMatchDB, ∀ pm ∈ db.get_matchups_without_known_pub, pm.known_pub = none)
    ∧ (∀ (kdb : KnownPubDB) (pm : PubMatch), ∃ e : KnownPubDBEntry,
        dictGet ((kdb.add_pubs_from_matchups [ pm ]).by_canonical_title)
          (to_canonical pm.get_pub_title) = some e
        ∧ e.state = some (if pm.is_lib_pub then STATE_INLIB else STATE_NEW)
        ∧ e.annot = some []
        ∧ e.title = pm.get_pub_title
        ∧ e.doi = to_canonical_doiV pm.get_pub_doi)
    ∧ (∀ pm : PubMatch, pm.is_new = true → pm.is_known = false →
        (if pm.is_lib_pub then STATE_INLIB else STATE_NEW) = STATE_NEW) := by
  refine ⟨?_, ?_, ?_⟩
  · intro db pm hmem
    rw [PubMatchDB.get_matchups_without_known_pub] at hmem
    have := List.of_mem_filter hmem
    simpa [Option.isNone_iff_eq_none] using this
  · intro kdb pm
    obtain ⟨h1, h2, h3, h4, h5⟩ := matchup_entry_fields pm
    refine ⟨_, ?_, h3, h4, h2, h5⟩
    rw [add_pubs_from_matchups_singleton]
    exact dictGet_set_self _ _ _
  · intro pm hnew _
    rw [PubMatch.is_new, Option.isNone_iff_eq_none] at hnew
    rw [PubMatch.is_lib_pub, hnew]
    rfl

/-- The alert of the C2 counterexample cluster: its search is on the exclude
list. -/
def c2Alert : Alert := { search := ("negsearch").toList }

/-- A cluster with no library record whose single alert pairing is
excluded. -/
def c2PubMatch : PubMatch :=
  { lib_pub := none
    pub_alerts := [ { pub := { title := ("P").toList, canonical_title := some (("p").toList) },
                      alert := c2Alert } ]
    known_pub := none
    canonical_doi := none
    canonical_title := some (("p").toList)
    canonical_first_author := none }

/-- The exclude list naming that search. -/
def c2Excl : ExcludeDB := [ ("negsearch").toList ]

/-- C2, counterexample: a cluster all of whose alert pairings match the
exclude list is still exported with state `new` and an empty annotation —
not with state "excluded" and an annotation naming the first alert search,
as the claim requires. -/
theorem c2_counterexample :
    (∀ pa ∈ c2PubMatch.pub_alerts, is_an_exclude_alert c2Excl pa.alert = true)
    ∧ (∃ e : KnownPubDBEntry,
        dictGet ((KnownPubDB.emptyK.add_pubs_from_matchups [ c2PubMatch ]).by_canonical_title)
          (to_canonical c2PubMatch.get_pub_title) = some e
        ∧ e.state = some STATE_NEW
        ∧ e.annot = some []
        ∧ e.state ≠ some (("excluded").toList)) := by
  constructor
  · decide
  · refine ⟨(((((KnownPubDBEntry.empty.set_title c2PubMatch.get_pub_title).set_authors
      c2PubMatch.get_pub_authors).set_doi c2PubMatch.get_pub_doi).set_state
      (if c2PubMatch.is_lib_pub then STATE_INLIB else STATE_NEW)).set_annot (some [])),
      ?_, ?_, ?_, ?_⟩
    · rw [add_pubs_from_matchups_singleton]
      exact dictGet_set_self _ _ _
    · rw [(matchup_entry_fields c2PubMatch).2.2.1]
      decide
    · exact (matchup_entry_fields c2PubMatch).2.2.2.1
    · rw [(matchup_entry_fields c2PubMatch).2.2.1]
      decide

/-- Witness for C2: the export conjunct applied to the concrete excluded
cluster (no library record, hence state `new`). -/
theorem c2_witness :
    ∃ e : KnownPubDBEntry,
      dictGet ((KnownPubDB.emptyK.add_pubs_from_matchups [ c2PubMatch ]).by_canonical_title)
        (to_canonical c2PubMatch.get_pub_title) = some e
      ∧ e.state = some (if c2PubMatch.is_lib_pub then STATE_INLIB else STATE_NEW)
      ∧ e.annot = some []
      ∧ e.title = c2PubMatch.get_pub_title
      ∧ e.doi = to_canonical_doiV c2PubMatch.get_pub_doi :=
  c2_amended_theorem.2.1 KnownPubDB.emptyK c2PubMatch

/-- A present DOI from `get_doi` is never the empty string. -/
theorem get_doi_some_ne (kp : KnownPubDBEntry) (d : Str) (h : kp.get_doi = some d) :
    d ≠ [] := by
  rw [KnownPubDBEntry.get_doi] at h
  intro he
  subst he
  cases hd : kp.doi with
  | none => rw [hd] at h; exact absurd h (by simp)
  | some dd =>
    rw [hd] at h
    cases dd with
    | nil => exact absurd h (by simp)
    | cons c cs => simp at h

/-- C6: overlaying one historical record looks up by canonical DOI first and
canonical title second; a record that matches a cluster is attached to it
with its state forced to `inlib` exactly when the cluster has a library pub;
a record that matches nothing leaves the index untouched (no new cluster, no
diagnostic). -/
theorem c6_theorem (db : PubMatchDB) (kp : KnownPubDBEntry) :
    (PubMatchDB.knownLookup db kp = none → db.add_known_pub_info [ kp ] = db)
    ∧ (∀ id pm, PubMatchDB.knownLookup db kp = some id → db.clusters.get? id = some pm →
        db.add_known_pub_info [ kp ] =
          { db with clusters := (db.clusters.set id
              (pm.set_known_pub (if pm.is_lib_pub then kp.set_state STATE_INLIB else kp))) })
    ∧ (∀ d, kp.get_doi = some d → (dictGet db.by_canonical_doi d).isSome = true →
        PubMatchDB.knownLookup db kp = dictGet db.by_canonical_doi d)
    ∧ ((match kp.get_doi with
        | none => True
        | some d => dictGet db.by_canonical_doi d = none) →
        PubMatchDB.knownLookup db kp =
          (if truthy kp.get_canonical_title then
            dictGet db.by_canonical_title (kp.get_canonical_title.getD []) else none)) := by
  refine ⟨?_, ?_, ?_, ?_⟩
  · intro h
    rw [PubMatchDB.add_known_pub_info]
    simp only [List.foldl_cons, List.foldl_nil, h]
  · intro id pm h hget
    rw [PubMatchDB.add_known_pub_info]
    simp only [List.foldl_cons, List.foldl_nil, h, hget]
  · intro d hd hsome
    rw [PubMatchDB.knownLookup]
    simp only [hd, truthy_some_ne d (get_doi_some_ne kp d hd), if_true, Option.getD_some]
    obtain ⟨id, hid⟩ := Option.isSome_iff_exists.mp hsome
    rw [hid]
  · intro h
    rw [PubMatchDB.knownLookup]
    cases hd : kp.get_doi with
    | none => simp [truthy]
    | some d =>
      rw [hd] at h
      simp only [truthy_some_ne d (get_doi_some_ne kp d hd), if_true, Option.getD_some, h]

/-- The library pub of the C6 witness cluster. -/
def c6Pub : Pub :=
  { title := ("T").toList
    canonical_title := some (("t").toList)
    canonical_doi := some (("10.9/z").toList)
    tags := [ ("g").toList ] }

/-- The C6 witness cluster: in the library, no alerts yet. -/
def c6Cluster : PubMatch :=
  { lib_pub := some c6Pub
    pub_alerts := []
    known_pub := none
    canonical_doi := some (("10.9/z").toList)
    canonical_title := some (("t").toList)
    canonical_first_author := none }

/-- The C6 witness index holding that one cluster. -/
def c6DB : PubMatchDB :=
  { clusters := [ c6Cluster ]
    by_canonical_doi := [ ((("10.9/z").toList), 0) ]
    by_canonical_title := [ ((("t").toList), 0) ]
    canonical_titles_sorted := [ ("t").toList ]
    ok_dups_by_canonical_title := [] }

/-- The C6 witness historical record, carrying a stale `wait` state and the
cluster's DOI. -/
def c6KP : KnownPubDBEntry :=
  { title := some (("T").toList)
    authors := some []
    doi := some (("10.9/z").toList)
    state := some STATE_WAIT
    annot := some []
    canonical_title := some (("t").toList) }

/-- Witness for C6: the overlay of the concrete record onto the concrete
index attaches it to cluster 0 with its state forced through the
library-membership branch. -/
theorem c6_witness :
    PubMatchDB.knownLookup c6DB c6KP = some 0
    ∧ c6DB.add_known_pub_info [ c6KP ] =
        { c6DB with clusters := (c6DB.clusters.set 0
            (c6Cluster.set_known_pub
              (if c6Cluster.is_lib_pub then c6KP.set_state STATE_INLIB else c6KP))) } :=
  ⟨by decide, (c6_theorem c6DB c6KP).2.1 0 c6Cluster (by decide) (by decide)⟩

/-- The qualifier lookup the report code performs always fails: the entry
class does not define `get_qualifier`. -/
theorem pyGetAttr_get_qualifier :
    pyGetAttr knownPubEntryAttrNames ("get_qualifier")
      = .error (.attributeError ("get_qualifier")) := by
  rw [pyGetAttr, if_neg]
  intro h
  exact absurd h (by decide)

/-- A cluster with no attached historical record renders without raising. -/
theorem renderOne_ok (excl : ExcludeDB) (cb : PubMatch → List Str) (pm : PubMatch)
    (kc nc : Nat) (h : pm.known_pub = none) :
    ∃ r, renderOne excl cb pm kc nc = .ok r := by
  rw [renderOne]
  by_cases hik : pm.is_known
  · rw [if_pos hik]
    simp only [h]
    exact ⟨_, rfl⟩
  · rw [if_neg hik]
    exact ⟨_, rfl⟩

/-- A cluster with an attached historical record makes `renderOne` raise the
`get_qualifier` `AttributeError`. -/
theorem renderOne_error (excl : ExcludeDB) (cb : PubMatch → List Str) (pm : PubMatch)
    (kc nc : Nat) (kp : KnownPubDBEntry) (h : pm.known_pub = some kp) :
    renderOne excl cb pm kc nc = .error (.attributeError ("get_qualifier")) := by
  have hik : pm.is_known = true := by
    rw [PubMatch.is_known, h]
    simp
  rw [renderOne, if_pos hik]
  simp only [h, pyGetAttr_get_qualifier]

/-- If any listed cluster carries a historical record, the render loop
propagates the `get_qualifier` `AttributeError`. -/
theorem renderLoop_error (excl : ExcludeDB) (cb : PubMatch → List Str) :
    ∀ (pms : List PubMatch), (∃ pm ∈ pms, pm.known_pub.isSome = true) →
    ∀ kc nc out, renderLoop excl cb pms kc nc out
      = .error (.attributeError ("get_qualifier"))
  | [], h => by
    obtain ⟨pm, hmem, _⟩ := h
    exact absurd hmem (by simp)
  | pm :: rest, h => by
    intro kc nc out
    by_cases hk : pm.known_pub.isSome = true
    · obtain ⟨kp, hkp⟩ := Option.isSome_iff_exists.mp hk
      rw [renderLoop, renderOne_error excl cb pm kc nc kp hkp]
    · have hnone : pm.known_pub = none := by
        cases hkp : pm.known_pub with
        | none => rfl
        | some kp => rw [hkp] at hk; exact absurd rfl hk
      obtain ⟨pm2, hmem, hsome⟩ := h
      have hrest : pm2 ∈ rest := by
        cases List.mem_cons.mp hmem with
        | inl he => rw [he] at hsome; exact absurd hsome hk
        | inr hin => exact hin
      obtain ⟨r, hr⟩ := renderOne_ok excl cb pm kc nc hnone
      rw [renderLoop, hr]
      exact renderLoop_error excl cb rest ⟨pm2, hrest, hsome⟩ r.2.1 r.2.2 (out ++ r.1)

/-- C10: whenever some cluster in the curation listing (every listed cluster
has at least one alert pairing) carries an attached historical record,
generating the report raises `AttributeError` before any output is produced:
the code calls `get_qualifier` on the record and refers to
`known_pub_db.STATE_EXCLUDE`, and the `known_pub_db` module defines
neither. -/
theorem c10_theorem (db : PubMatchDB) (excl : ExcludeDB) (cb : PubMatch → List Str)
    (h : ∃ pm ∈ db.get_matchups_with_alerts_sorted_by_title, pm.known_pub.isSome = true) :
    db.matchups_with_pub_alerts_to_html excl cb
      = .error (.attributeError ("get_qualifier"))
    ∧ ("get_qualifier") ∉ knownPubEntryAttrNames
    ∧ ("STATE_EXCLUDE") ∉ knownPubDbModuleNames := by
  refine ⟨?_, by decide, by decide⟩
  rw [PubMatchDB.matchups_with_pub_alerts_to_html,
    renderLoop_error excl cb (db.get_matchups_with_alerts_sorted_by_title) h 0 0 []]
  rfl

/-- The alert pairing of the C10 witness cluster. -/
def c10Alert : PubAlert :=
  { pub := { title := ("T").toList, canonical_title := some (("t").toList) }
    alert := { search := ("s").toList, source_name := ("GS").toList } }

/-- The C10 witness cluster: one alert pairing and an attached historical
record. -/
def c10Cluster : PubMatch :=
  { lib_pub := none
    pub_alerts := [ c10Alert ]
    known_pub := some c6KP
    canonical_doi := none
    canonical_title := some (("t").toList)
    canonical_first_author := none }

/-- The C10 witness index. -/
def c10DB : PubMatchDB :=
  { clusters := [ c10Cluster ]
    by_canonical_doi := []
    by_canonical_title := [ ((("t").toList), 0) ]
    canonical_titles_sorted := [ ("t").toList ]
    ok_dups_by_canonical_title := [] }

/-- Witness for C10: rendering the concrete index raises the
`get_qualifier` `AttributeError`. -/
theorem c10_witness :
    c10DB.matchups_with_pub_alerts_to_html [] (fun _ => [])
      = .error (.attributeError ("get_qualifier")) :=
  (c10_theorem c10DB [] (fun _ => [])
    ⟨c10Cluster, by decide, rfl⟩).1

/-- Assigning one key leaves other keys' lookups unchanged. -/
theorem dictGet_set_ne {κ β : Type} [BEq κ] [LawfulBEq κ] (d : List (κ × β)) (k k2 : κ)
    (v : β) (h : k2 ≠ k) : dictGet (dictSet d k v) k2 = dictGet d k2 := by
  induction d with
  | nil => simp [dictSet, dictGet, Ne.symm h]
  | cons kv rest ih =>
    by_cases hk : kv.1 == k
    · have hkv : kv.1 = k := by simpa using hk
      simp [dictSet, dictGet, hk, hkv, Ne.symm h]
    · by_cases hk2 : kv.1 == k2
      · simp [dictSet, dictGet, hk, hk2, ih]
      · simp [dictSet, dictGet, hk, hk2, ih]

/-- A `bisect_left` probe equal to the list length is exactly an empty
`dropWhile` remainder. -/
theorem bisectLeft_eq_length_iff (l : List Str) (x : Str) :
    bisectLeft l x = l.length ↔ l.dropWhile (fun t => pyLt t x) = [] := by
  have hsum : (l.takeWhile (fun t => pyLt t x)).length
      + (l.dropWhile (fun t => pyLt t x)).length = l.length := by
    rw [← List.length_append, List.takeWhile_append_dropWhile]
  rw [bisectLeft]
  constructor
  · intro h
    rw [← List.length_eq_zero]
    omega
  · intro h
    rw [h] at hsum
    simpa using hsum


/-- C5 (amended): for an incoming alert pairing that fails the canonical-DOI
lookup and the exact canonical-title lookup and whose raw title is not
truncation-marked, the re-keying merge path fires if and only if the raw
title's length is at least `MIN_TRUNCATED_TITLE_LEN` and some stored
canonical title starts with the incoming canonical title cut to that length;
when it fires, the matched cluster's old canonical-title key is removed from
the title map and the sorted list, the incoming canonical title becomes its
key, and the pairing is merged into the re-titled cluster. -/
theorem c5_amended_theorem (db : PubMatchDB) (pa : PubAlert) (c : Str)
    (hsorted : db.canonical_titles_sorted.Pairwise (fun a b => pyLe a b = true))
    (hkeys : ∀ t ∈ db.canonical_titles_sorted, (dictGet db.by_canonical_title t).isSome = true)
    (hids : ∀ t id, dictGet db.by_canonical_title t = some id → id < db.clusters.length)
    (hct : pa.pub.canonical_title = some c)
    (hcne : c ≠ [])
    (hdoi : PubMatchDB.doiLookup db pa = none)
    (htl : dictGet db.by_canonical_title c = none)
    (htr : is_google_truncated_title pa.pub.title = false) :
    ((∃ r id old, PubMatchDB.add_pub_alert_step db pa = .ok (r, .rekeyedMerge id old))
      ↔ (MIN_TRUNCATED_TITLE_LEN ≤ pa.pub.title.length
          ∧ ∃ t ∈ db.canonical_titles_sorted,
              ((c.take MIN_TRUNCATED_TITLE_LEN).isPrefixOf t) = true))
    ∧ (∀ r id old, PubMatchDB.add_pub_alert_step db pa = .ok (r, .rekeyedMerge id old) →
        dictGet db.by_canonical_title old = some id
        ∧ ((c.take MIN_TRUNCATED_TITLE_LEN).isPrefixOf old) = true
        ∧ old ∈ db.canonical_titles_sorted
        ∧ r.by_canonical_title = dictSet (dictDel db.by_canonical_title old) c id
        ∧ dictGet r.by_canonical_title c = some id
        ∧ dictGet r.by_canonical_title old = none
        ∧ r.canonical_titles_sorted = insortRight
            (db.canonical_titles_sorted.eraseIdx
              (bisectLeft db.canonical_titles_sorted (c.take MIN_TRUNCATED_TITLE_LEN))) c
        ∧ (∃ pmOld, db.clusters.get? id = some pmOld ∧
            r.clusters = db.clusters.set id
              ((({ pmOld with canonical_title := some c }).add_pub_alert pa).1))) := by
  have hTL : PubMatchDB.titleLookup db pa = none := by
    rw [PubMatchDB.titleLookup, hct]
    simp only [truthy_some_ne c hcne, if_true, Option.getD_some, htl]
  have hstep : PubMatchDB.add_pub_alert_step db pa =
      (if MIN_TRUNCATED_TITLE_LEN ≤ pa.pub.title.length then PubMatchDB.rekeyBranch db pa
       else PubMatchDB.createNewCluster db pa) := by
    rw [PubMatchDB.add_pub_alert_step, hdoi, hTL, htr]
    simp only [Bool.false_eq_true, if_false]
  have hcreate : ∃ db2, PubMatchDB.createNewCluster db pa
      = .ok (db2, .created db.clusters.length) := by
    rw [PubMatchDB.createNewCluster, PubMatch.init]
    simp only [Option.isNone_none, List.isEmpty_cons, Bool.and_false, Bool.false_eq_true,
      if_false]
    exact ⟨_, rfl⟩
  obtain ⟨dbNew, hcr⟩ := hcreate
  have hgetq : db.canonical_titles_sorted.get?
      (bisectLeft db.canonical_titles_sorted (c.take MIN_TRUNCATED_TITLE_LEN))
      = (db.canonical_titles_sorted.dropWhile
          (fun t => pyLt t (c.take MIN_TRUNCATED_TITLE_LEN))).head? := by
    rw [bisectLeft, List.get?_eq_getElem?]
    exact get?_at_takeWhile_length _ _
  by_cases hlen : MIN_TRUNCATED_TITLE_LEN ≤ pa.pub.title.length
  · rw [if_pos hlen] at hstep
    cases hdw : db.canonical_titles_sorted.dropWhile
        (fun t => pyLt t (c.take MIN_TRUNCATED_TITLE_LEN)) with
    | nil =>
      have hil : bisectLeft db.canonical_titles_sorted (c.take MIN_TRUNCATED_TITLE_LEN)
          = db.canonical_titles_sorted.length :=
        (bisectLeft_eq_length_iff _ _).mpr hdw
      have hbr : PubMatchDB.rekeyBranch db pa = .ok (dbNew, .created db.clusters.length) := by
        rw [PubMatchDB.rekeyBranch]
        simp only [hct, Option.getD_some, hil, if_pos rfl]
        exact hcr
      rw [hbr] at hstep
      constructor
      · constructor
        · rintro ⟨r, id, old, heq⟩
          rw [hstep] at heq
          simp only [Except.ok.injEq, Prod.mk.injEq] at heq
          exact absurd heq.2 (by simp)
        · rintro ⟨_, t, htL, htp⟩
          exfalso
          obtain ⟨t2, hh2, _⟩ := (bisect_found_iff db.canonical_titles_sorted
            (c.take MIN_TRUNCATED_TITLE_LEN) hsorted).mpr ⟨t, htL, htp⟩
          rw [hdw] at hh2
          exact absurd hh2 (by simp)
      · intro r id old heq
        exfalso
        rw [hstep] at heq
        simp only [Except.ok.injEq, Prod.mk.injEq] at heq
        exact absurd heq.2 (by simp)
    | cons b rest =>
      have hbne : bisectLeft db.canonical_titles_sorted (c.take MIN_TRUNCATED_TITLE_LEN)
          ≠ db.canonical_titles_sorted.length := by
        rw [Ne, bisectLeft_eq_length_iff, hdw]
        simp
      have hgb : db.canonical_titles_sorted.get?
          (bisectLeft db.canonical_titles_sorted (c.take MIN_TRUNCATED_TITLE_LEN))
          = some b := by
        rw [hgetq, hdw]
        rfl
      by_cases hpb : ((c.take MIN_TRUNCATED_TITLE_LEN).isPrefixOf b) = true
      · have hbL : b ∈ db.canonical_titles_sorted := by
          refine List.Sublist.mem ?_ (List.dropWhile_sublist
            (fun t => pyLt t (c.take MIN_TRUNCATED_TITLE_LEN)))
          rw [hdw]
          exact List.mem_cons_self b rest
        obtain ⟨id0, hdict⟩ := Option.isSome_iff_exists.mp (hkeys b hbL)
        have hidlt := hids b id0 hdict
        obtain ⟨pm0, hpm0⟩ : ∃ pm0, db.clusters.get? id0 = some pm0 := by
          cases hc : db.clusters.get? id0 with
          | none =>
            rw [List.get?_eq_none] at hc
            omega
          | some pm0 => exact ⟨pm0, rfl⟩
        have hbc : b ≠ c := by
          intro he
          rw [he, htl] at hdict
          exact absurd hdict (by simp)
        have hbr : PubMatchDB.rekeyBranch db pa = .ok ({ db with
            by_canonical_title := dictSet (dictDel db.by_canonical_title b) c id0
            canonical_titles_sorted := insortRight
              (db.canonical_titles_sorted.eraseIdx
                (bisectLeft db.canonical_titles_sorted (c.take MIN_TRUNCATED_TITLE_LEN))) c
            clusters := (db.clusters.set id0
              ((({ pm0 with canonical_title := some c }).add_pub_alert pa).1)) },
            .rekeyedMerge id0 b) := by
          rw [PubMatchDB.rekeyBranch]
          simp only [hct, Option.getD_some]
          simp only [if_neg hbne, hgb, hpb, if_true, hdict, hpm0]
        rw [hbr] at hstep
        constructor
        · constructor
          · intro _
            exact ⟨hlen, b, hbL, hpb⟩
          · intro _
            exact ⟨_, id0, b, hstep⟩
        · intro r id old heq
          rw [hstep] at heq
          simp only [Except.ok.injEq, Prod.mk.injEq] at heq
          obtain ⟨hr, hout⟩ := heq
          have hid : id0 = id ∧ b = old := by
            cases hout
            exact ⟨rfl, rfl⟩
          obtain ⟨hid0, hold⟩ := hid
          subst hid0
          subst hold
          subst hr
          refine ⟨hdict, hpb, hbL, rfl, ?_, ?_, rfl, ⟨pm0, hpm0, rfl⟩⟩
          · exact dictGet_set_self _ _ _
          · rw [dictGet_set_ne _ _ _ _ hbc]
            exact dictGet_del_self _ _
      · have hbr : PubMatchDB.rekeyBranch db pa
            = .ok (dbNew, .created db.clusters.length) := by
          rw [PubMatchDB.rekeyBranch]
          simp only [hct, Option.getD_some]
          simp only [if_neg hbne, hgb, Bool.eq_false_iff.mpr hpb, Bool.false_eq_true,
            if_false]
          exact hcr
        rw [hbr] at hstep
        constructor
        · constructor
          · rintro ⟨r, id, old, heq⟩
            rw [hstep] at heq
            simp only [Except.ok.injEq, Prod.mk.injEq] at heq
            exact absurd heq.2 (by simp)
          · rintro ⟨_, t, htL, htp⟩
            exfalso
            obtain ⟨t2, hh2, hp2⟩ := (bisect_found_iff db.canonical_titles_sorted
              (c.take MIN_TRUNCATED_TITLE_LEN) hsorted).mpr ⟨t, htL, htp⟩
            rw [hdw] at hh2
            simp only [List.head?_cons, Option.some.injEq] at hh2
            rw [hh2] at hpb
            exact hpb hp2
        · intro r id old heq
          exfalso
          rw [hstep] at heq
          simp only [Except.ok.injEq, Prod.mk.injEq] at heq
          exact absurd heq.2 (by simp)
  · rw [if_neg hlen, hcr] at hstep
    constructor
    · constructor
      · rintro ⟨r, id, old, heq⟩
        rw [hstep] at heq
        simp only [Except.ok.injEq, Prod.mk.injEq] at heq
        exact absurd heq.2 (by simp)
      · rintro ⟨h1, _⟩
        exact absurd h1 hlen
    · intro r id old heq
      exfalso
      rw [hstep] at heq
      simp only [Except.ok.injEq, Prod.mk.injEq] at heq
      exact absurd heq.2 (by simp)

/-- The outcome tag of a step, when it succeeded. -/
def stepOutcomeOf (x : Except PyErr (PubMatchDB × StepOutcome)) : Option StepOutcome :=
  match x with
  | .ok (_, o) => some o
  | .error _ => none

/-- The stored canonical title for the C5 witness (136 characters). -/
def c5StoredTitle : Str := List.replicate 136 'a'

/-- The C5 witness cluster, stored under that title. -/
def c5Cluster : PubMatch :=
  { lib_pub := none
    pub_alerts := []
    known_pub := none
    canonical_doi := none
    canonical_title := some c5StoredTitle
    canonical_first_author := none }

/-- The C5 witness index. -/
def c5DB : PubMatchDB :=
  { clusters := [ c5Cluster ]
    by_canonical_doi := []
    by_canonical_title := [ (c5StoredTitle, 0) ]
    canonical_titles_sorted := [ c5StoredTitle ]
    ok_dups_by_canonical_title := [] }

/-- The C5 witness incoming pairing: raw and canonical title of 137
characters, extending the stored title's 135-character prefix. -/
def c5Incoming : PubAlert :=
  { pub := { title := List.replicate 137 'a'
             canonical_title := some (List.replicate 137 'a') }
    alert := { search := ("gs").toList } }

set_option maxRecDepth 10000 in
/-- Witness for C5: on the concrete index the re-keying path fires. -/
theorem c5_witness :
    ∃ r id old, PubMatchDB.add_pub_alert_step c5DB c5Incoming
      = .ok (r, .rekeyedMerge id old) :=
  (c5_amended_theorem c5DB c5Incoming (List.replicate 137 'a')
    (by simp [c5DB])
    (by decide)
    (by
      intro t id h
      simp only [c5DB, dictGet] at h
      split at h
      · injection h with h
        simp [c5DB]
        omega
      · exact absurd h (by simp))
    rfl
    (by decide)
    (by decide)
    (by decide)
    (by decide)).1.mpr
    ⟨by decide, c5StoredTitle, by decide, by decide⟩

/-- The stored canonical title for the C5 counterexample (130 characters). -/
def c5xStored : Str := List.replicate 130 'a'

/-- The C5 counterexample cluster. -/
def c5xCluster : PubMatch :=
  { lib_pub := none
    pub_alerts := []
    known_pub := none
    canonical_doi := none
    canonical_title := some c5xStored
    canonical_first_author := none }

/-- The C5 counterexample index. -/
def c5xDB : PubMatchDB :=
  { clusters := [ c5xCluster ]
    by_canonical_doi := []
    by_canonical_title := [ (c5xStored, 0) ]
    canonical_titles_sorted := [ c5xStored ]
    ok_dups_by_canonical_title := [] }

/-- The C5 counterexample incoming pairing: the raw title is 140 characters
(20 hyphens and 120 letters) but its canonical title is only 120 characters,
below the fixed threshold. -/
def c5xIncoming : PubAlert :=
  { pub := { title := List.replicate 20 '-' ++ List.replicate 120 'a'
             canonical_title := some (List.replicate 120 'a') }
    alert := { search := ("gs").toList } }

set_option maxRecDepth 10000 in
/-- C5, counterexample: the code gates the re-keying path on the RAW title's
length, not the canonical title's.  Here the canonical title has length 120,
below the threshold — so under the claim as stated the re-keying path must
not be taken — yet the raw title has length 140 and the path fires. -/
theorem c5_counterexample :
    ((c5xIncoming.pub.canonical_title.getD []).length < MIN_TRUNCATED_TITLE_LEN)
    ∧ MIN_TRUNCATED_TITLE_LEN ≤ c5xIncoming.pub.title.length
    ∧ dictGet c5xDB.by_canonical_title (c5xIncoming.pub.canonical_title.getD []) = none
    ∧ is_google_truncated_title c5xIncoming.pub.title = false
    ∧ stepOutcomeOf (PubMatchDB.add_pub_alert_step c5xDB c5xIncoming)
        = some (.rekeyedMerge 0 c5xStored) := by
  refine ⟨by decide, by decide, by decide, by decide, by decide⟩

/-- `add_pub_alert` for a pairing without a canonical DOI: the cluster DOI is
untouched and the canonical title is back-filled exactly when absent. -/
theorem add_pub_alert_noDoi (pm : PubMatch) (pa : PubAlert)
    (hd : pa.pub.canonical_doi = none) :
    ((pm.add_pub_alert pa).1.canonical_doi = pm.canonical_doi)
    ∧ ((pm.add_pub_alert pa).1.canonical_title =
        if truthy pa.pub.canonical_title && !(truthy pm.canonical_title) then
          pa.pub.canonical_title
        else pm.canonical_title) := by
  rw [PubMatch.add_pub_alert]
  simp only [hd]
  split_ifs <;> simp_all [truthy]

/-- C1 (amended): if, in one run starting from an empty index, a
truncation-marked alert record is ingested first and a later alert record
supplies the full, longer title — both without canonical DOIs, the truncated
canonical title a proper prefix of the full one, the truncated canonical
title at least `MIN_TRUNCATED_TITLE_LEN` characters and the full raw title
at least `MIN_TRUNCATED_TITLE_LEN` characters — then the index ends with
exactly one cluster holding both pairings, keyed in the title map and the
sorted canonical-title list by the full canonical title alone, the truncated
key removed. -/
theorem c1_amended_theorem (pa1 pa2 : PubAlert) (c1 c2 : Str)
    (h1 : pa1.pub.canonical_doi = none) (h2 : pa2.pub.canonical_doi = none)
    (h3 : pa1.pub.canonical_title = some c1) (h4 : pa2.pub.canonical_title = some c2)
    (h5 : is_google_truncated_title pa1.pub.title = true)
    (h6 : is_google_truncated_title pa2.pub.title = false)
    (h7 : c1.isPrefixOf c2 = true) (h8 : c1 ≠ c2)
    (h9 : MIN_TRUNCATED_TITLE_LEN ≤ c1.length)
    (h10 : MIN_TRUNCATED_TITLE_LEN ≤ pa2.pub.title.length) :
    ∃ dbf, PubMatchDB.add_pub_alertsDB PubMatchDB.emptyDB [ pa1, pa2 ] = .ok dbf
      ∧ dbf.by_canonical_title = [ (c2, 0) ]
      ∧ dbf.canonical_titles_sorted = [ c2 ]
      ∧ dbf.clusters.length = 1
      ∧ (dbf.clusters.get? 0).map (fun pm => pm.pub_alerts) = some [ pa1, pa2 ]
      ∧ (dbf.clusters.get? 0).map (fun pm => pm.canonical_title) = some (some c2) := by
  have hc1ne : c1 ≠ [] := by
    intro he
    rw [he] at h9
    simp [MIN_TRUNCATED_TITLE_LEN] at h9
  obtain ⟨rext, hrext⟩ := isPrefixOf_exists_append c1 c2 h7
  have hc2ne : c2 ≠ [] := by
    rw [hrext]
    intro he
    exact hc1ne (List.append_eq_nil.mp he).1
  have hpfx : ((c2.take MIN_TRUNCATED_TITLE_LEN).isPrefixOf c1) = true := by
    rw [hrext, List.take_append_of_le_length h9]
    exact take_isPrefixOf _ _
  -- the cluster created for the first alert
  have hbase : ∀ pm0 : PubMatch, pm0.canonical_doi = none → pm0.canonical_title = none →
      ((pm0.add_pub_alert pa1).1.canonical_doi = none
        ∧ (pm0.add_pub_alert pa1).1.canonical_title = some c1) := by
    intro pm0 hd0 ht0
    obtain ⟨ha, hb⟩ := add_pub_alert_noDoi pm0 pa1 h1
    refine ⟨by rw [ha, hd0], ?_⟩
    rw [hb, ht0, h3]
    simp [truthy, List.isEmpty_iff, hc1ne]
  obtain ⟨hpm1doi, hpm1title⟩ := hbase
    { lib_pub := none, pub_alerts := [], known_pub := none, canonical_doi := none,
      canonical_title := none, canonical_first_author := none } rfl rfl
  have hpm1alerts : (PubMatch.add_pub_alert
      { lib_pub := none, pub_alerts := [], known_pub := none, canonical_doi := none,
        canonical_title := none, canonical_first_author := none } pa1).1.pub_alerts
      = [ pa1 ] := (add_pub_alert_fields _ pa1).2.2
  -- step 1: the truncated first alert creates a new cluster keyed by c1
  have hinit : PubMatch.init none [ pa1 ] = .ok
      ((PubMatch.add_pub_alert
        { lib_pub := none, pub_alerts := [], known_pub := none, canonical_doi := none,
          canonical_title := none, canonical_first_author := none } pa1).1,
       (PubMatch.add_pub_alert
        { lib_pub := none, pub_alerts := [], known_pub := none, canonical_doi := none,
          canonical_title := none, canonical_first_author := none } pa1).2) := by
    rw [PubMatch.init]
    simp only [Option.isNone_none, List.isEmpty_cons, Bool.and_false, Bool.false_eq_true,
      if_false, PubMatch.set_lib_pub, PubMatch.add_pub_alerts, List.foldl_cons,
      List.foldl_nil, List.nil_append]
  have hstep1 : PubMatchDB.add_pub_alert_step PubMatchDB.emptyDB pa1 = .ok
      ({ clusters := [ (PubMatch.add_pub_alert
            { lib_pub := none, pub_alerts := [], known_pub := none, canonical_doi := none,
              canonical_title := none, canonical_first_author := none } pa1).1 ]
         by_canonical_doi := []
         by_canonical_title := [ (c1, 0) ]
         canonical_titles_sorted := [ c1 ]
         ok_dups_by_canonical_title := [] }, .created 0) := by
    have hd1 : PubMatchDB.doiLookup PubMatchDB.emptyDB pa1 = none := by
      rw [PubMatchDB.doiLookup, h1]
      rfl
    have ht1 : PubMatchDB.titleLookup PubMatchDB.emptyDB pa1 = none := by
      rw [PubMatchDB.titleLookup, h3]
      simp [truthy, List.isEmpty_iff, hc1ne, PubMatchDB.emptyDB, dictGet]
    rw [PubMatchDB.add_pub_alert_step]
    simp only [hd1, ht1, h5, if_true]
    rw [PubMatchDB.truncatedBranch]
    simp only [PubMatchDB.emptyDB, bisectLeft, List.takeWhile_nil, List.length_nil,
      if_pos rfl]
    rw [PubMatchDB.createNewCluster, hinit]
    simp only [PubMatchDB.add_pub_match]
    simp only [hpm1doi, hpm1title, truthy, List.isEmpty_iff, hc1ne, Bool.not_true,
      Bool.false_eq_true, if_false, if_true, Option.getD_some, List.isEmpty_nil]
    simp [dictSet, insortRight, List.takeWhile, List.dropWhile, PubMatchDB.emptyDB,
      List.isEmpty_iff, hc1ne]
  -- step 2: the full second alert re-keys the cluster to c2 and merges
  have hd2 : PubMatchDB.doiLookup
      { clusters := [ (PubMatch.add_pub_alert
          { lib_pub := none, pub_alerts := [], known_pub := none, canonical_doi := none,
            canonical_title := none, canonical_first_author := none } pa1).1 ]
        by_canonical_doi := []
        by_canonical_title := [ (c1, 0) ]
        canonical_titles_sorted := [ c1 ]
        ok_dups_by_canonical_title := [] : PubMatchDB } pa2 = none := by
    rw [PubMatchDB.doiLookup, h2]
    rfl
  have ht2 : PubMatchDB.titleLookup
      { clusters := [ (PubMatch.add_pub_alert
          { lib_pub := none, pub_alerts := [], known_pub := none, canonical_doi := none,
            canonical_title := none, canonical_first_author := none } pa1).1 ]
        by_canonical_doi := []
        by_canonical_title := [ (c1, 0) ]
        canonical_titles_sorted := [ c1 ]
        ok_dups_by_canonical_title := [] : PubMatchDB } pa2 = none := by
    rw [PubMatchDB.titleLookup, h4]
    simp [truthy, List.isEmpty_iff, hc2ne, dictGet, beq_eq_false_iff_ne.mpr h8]
  have hlt1 : pyLt c1 (c2.take MIN_TRUNCATED_TITLE_LEN) = false :=
    isPrefixOf_not_pyLt _ _ hpfx
  have hstep2 : PubMatchDB.add_pub_alert_step
      { clusters := [ (PubMatch.add_pub_alert
          { lib_pub := none, pub_alerts := [], known_pub := none, canonical_doi := none,
            canonical_title := none, canonical_first_author := none } pa1).1 ]
        by_canonical_doi := []
        by_canonical_title := [ (c1, 0) ]
        canonical_titles_sorted := [ c1 ]
        ok_dups_by_canonical_title := [] : PubMatchDB } pa2 = .ok
      ({ clusters := [ (PubMatch.add_pub_alert
            { (PubMatch.add_pub_alert
              { lib_pub := none, pub_alerts := [], known_pub := none, canonical_doi := none,
                canonical_title := none, canonical_first_author := none } pa1).1 with
              canonical_title := some c2 } pa2).1 ]
         by_canonical_doi := []
         by_canonical_title := [ (c2, 0) ]
         canonical_titles_sorted := [ c2 ]
         ok_dups_by_canonical_title := [] }, .rekeyedMerge 0 c1) := by
    rw [PubMatchDB.add_pub_alert_step]
    simp only [hd2, ht2, h6, Bool.false_eq_true, if_false, h10, if_true]
    rw [PubMatchDB.rekeyBranch]
    simp only [h4, Option.getD_some, bisectLeft, List.takeWhile_cons, hlt1,
      Bool.false_eq_true, if_false, List.length_nil, List.length_cons,
      List.takeWhile_nil]
    simp only [show (0 : Nat) ≠ 0 + 1 from by omega, if_neg, if_false]
    simp only [List.get?_cons_zero, hpfx, if_true, dictGet, beq_self_eq_true,
      List.eraseIdx, dictDel, dictSet, List.filter, insortRight, List.takeWhile_nil,
      List.dropWhile_nil, List.set]
    simp
  -- compose the two steps
  have hrun : PubMatchDB.add_pub_alertsDB PubMatchDB.emptyDB [ pa1, pa2 ] = .ok
      ({ clusters := [ (PubMatch.add_pub_alert
            { (PubMatch.add_pub_alert
              { lib_pub := none, pub_alerts := [], known_pub := none, canonical_doi := none,
                canonical_title := none, canonical_first_author := none } pa1).1 with
              canonical_title := some c2 } pa2).1 ]
         by_canonical_doi := []
         by_canonical_title := [ (c2, 0) ]
         canonical_titles_sorted := [ c2 ]
         ok_dups_by_canonical_title := [] }) := by
    rw [PubMatchDB.add_pub_alertsDB, List.foldlM_cons, hstep1]
    simp only [Except.map, bind, Except.bind]
    rw [List.foldlM_cons, hstep2]
    simp only [Except.map, bind, Except.bind, List.foldlM_nil]
    rfl
  refine ⟨_, hrun, rfl, rfl, rfl, ?_, ?_⟩
  · simp only [List.get?_cons_zero, Option.map_some']
    rw [(add_pub_alert_fields _ pa2).2.2]
    simp only [hpm1alerts]
    rfl
  · simp only [List.get?_cons_zero, Option.map_some']
    rw [(add_pub_alert_noDoi _ pa2 h2).2]
    simp [truthy, List.isEmpty_iff, hc2ne]

/-- The truncated first alert for the C1 witness (135-character canonical
title plus the truncation marker). -/
def c1Pa1 : PubAlert :=
  { pub := { title := List.replicate 135 'a' ++ [ ' ', '…' ]
             canonical_title := some (List.replicate 135 'a') }
    alert := { search := ("gs").toList } }

/-- The full second alert for the C1 witness (140-character title). -/
def c1Pa2 : PubAlert :=
  { pub := { title := List.replicate 140 'a'
             canonical_title := some (List.replicate 140 'a') }
    alert := { search := ("gs").toList } }

set_option maxRecDepth 10000 in
/-- Witness for C1: the amended scenario at concrete titles long enough for
the re-keying heuristic. -/
theorem c1_witness :
    ∃ dbf, PubMatchDB.add_pub_alertsDB PubMatchDB.emptyDB [ c1Pa1, c1Pa2 ] = .ok dbf
      ∧ dbf.by_canonical_title = [ (List.replicate 140 'a', 0) ]
      ∧ dbf.canonical_titles_sorted = [ List.replicate 140 'a' ]
      ∧ dbf.clusters.length = 1
      ∧ (dbf.clusters.get? 0).map (fun pm => pm.pub_alerts) = some [ c1Pa1, c1Pa2 ]
      ∧ (dbf.clusters.get? 0).map (fun pm => pm.canonical_title)
          = some (some (List.replicate 140 'a')) :=
  c1_amended_theorem c1Pa1 c1Pa2 (List.replicate 135 'a') (List.replicate 140 'a')
    rfl rfl rfl rfl (by decide) (by decide) (by decide) (by decide) (by decide) (by decide)

/-- The spec's own truncated alert record. -/
def c1xPa1 : PubAlert :=
  { pub := { title := ("A Study Of Something Very Long An …").toList
             canonical_title := some (("astudyofsomethingverylongan").toList) }
    alert := { search := ("gs").toList } }

/-- The spec's own full alert record. -/
def c1xPa2 : PubAlert :=
  { pub := { title := ("A Study Of Something Very Long And Detailed").toList
             canonical_title := some (("astudyofsomethingverylonganddetailed").toList) }
    alert := { search := ("gs").toList } }

set_option maxRecDepth 10000 in
/-- C1, counterexample: on the spec's own example titles — the truncated
record first, the full record (43 raw characters, far below
`MIN_TRUNCATED_TITLE_LEN`) second, same canonical prefix — the run ends with
TWO clusters and the truncated canonical-title key still present, not one
cluster keyed by the full title. -/
theorem c1_counterexample :
    (c1xPa1.pub.canonical_title = to_canonical (some c1xPa1.pub.title))
    ∧ (c1xPa2.pub.canonical_title = to_canonical (some c1xPa2.pub.title))
    ∧ is_google_truncated_title c1xPa1.pub.title = true
    ∧ is_google_truncated_title c1xPa2.pub.title = false
    ∧ ((c1xPa1.pub.canonical_title.getD []).isPrefixOf
        (c1xPa2.pub.canonical_title.getD [])) = true
    ∧ ((PubMatchDB.add_pub_alertsDB PubMatchDB.emptyDB [ c1xPa1, c1xPa2 ]).toOption.map
        (fun d => (d.clusters.length, d.canonical_titles_sorted.length,
          (dictGet d.by_canonical_title
            (("astudyofsomethingverylongan").toList)).isSome)))
        = some (2, 2, true) := by
  refine ⟨?_, ?_, by decide, by decide, by decide, by decide⟩ <;>
    (simp only [c1xPa1, c1xPa2, to_canonical, truthy, pySubNonWord_eq_filter]; decide)
